import Mathlib

/-!
# Verification of the user-memory subsystem of deen-backend

Shallow embedding of the long-term user-memory subsystem:
note storage (`MemoryService.add_notes`), the duplicate filter
(`MemoryConsolidator._is_note_duplicate` / `check_for_duplicates_before_adding`),
the consolidation policy and engine (`MemoryConsolidator`), the
signal-retrieval step (`EmbeddingService.find_similar_notes_to_lesson`),
the primer cache-freshness protocol (`is_primer_fresh`, `PrimerService`)
and the interaction analyzer (`UniversalMemoryAgent.analyze_interaction`).

Conventions of the embedding:
* JSON dicts become structures; `dict.get(key, default)` on fields that the
  code always reads with the same default is folded into a total field,
  except where absence matters behaviourally (`id`, `created_at` during
  stamping; these stay `Option`).
* Python `datetime` timestamps become `Nat` (a point on a totally ordered
  time axis); float scores and confidences become `ℚ`.
* The external embedding provider (`SentenceTransformer` / OpenAI embed) is a
  black-box parameter `embed : String → List ℚ`; the external generation call
  is a black-box outcome value; the pgvector cosine-distance operator `<=>`
  (external to the repository) is a black-box parameter.
* SQLAlchemy sessions become an explicit two-copy transaction state
  (`committed`/`current` stores): `add`/mutation acts on `current`,
  `commit` copies `current` into `committed`, `rollback` copies
  `committed` back into `current`.
-/

/-- A user-memory note (a JSON dict in the source).  Fields the code reads
with a constant `.get` default are total; `id` and `created_at` are `Option`
because `MemoryService.add_notes` stamps them only when absent/falsy. -/
structure Note where
  id : Option String
  content : String
  evidence : String
  confidence : ℚ
  category : String
  tags : List String
  note_type : String
  created_at : Option String
deriving Repr, DecidableEq

/-- `UserMemoryProfile` row (src/agents/models/user_memory_models.py): five
note collections plus metadata.  The source guards every collection read
with `or []`, so a `None` collection behaves exactly like `[]`; collections
are therefore plain lists here. -/
structure UserMemoryProfile where
  id : String
  user_id : String
  learning_notes : List Note
  knowledge_notes : List Note
  interest_notes : List Note
  behavior_notes : List Note
  preference_notes : List Note
  total_interactions : Nat
  memory_version : Nat
  last_significant_update : Option Nat
  updated_at : Option Nat
deriving Repr, DecidableEq

/-- The five note collections of a profile, in the insertion order used by
the `categories` dicts of `memory_consolidator.py`. -/
def UserMemoryProfile.collections (p : UserMemoryProfile) : List (List Note) :=
  [p.learning_notes, p.knowledge_notes, p.interest_notes,
   p.behavior_notes, p.preference_notes]

/-- The five recognized collection names, in source order. -/
def collectionNames : List String :=
  ["learning_notes", "knowledge_notes", "interest_notes",
   "behavior_notes", "preference_notes"]

/-- The collection stored under one of the five recognized names (`[]` for
any other name).  A pure helper for stating properties of the static
`elif` chains (`add_notes`); the *dynamic* `getattr` lookup of
`check_for_duplicates_before_adding`, which can also hit non-collection
attributes, is modelled by `getProfileAttr`. -/
def namedCollection (p : UserMemoryProfile) (note_type : String) : List Note :=
  if note_type = "learning_notes" then p.learning_notes
  else if note_type = "knowledge_notes" then p.knowledge_notes
  else if note_type = "interest_notes" then p.interest_notes
  else if note_type = "behavior_notes" then p.behavior_notes
  else if note_type = "preference_notes" then p.preference_notes
  else []

/-- The value `getattr(memory_profile, note_type, [])` can take: one of the
five note collections (a list of note dicts), some *other* attribute of
the live mapped object (only its Python truthiness matters downstream), or
the default `[]` when the name is not an attribute at all. -/
inductive ProfileAttr where
  | collection (notes : List Note)
  | nonList (truthy : Bool)
  | absent
deriving Repr, DecidableEq

/-- `getattr(memory_profile, note_type, [])` for the dynamic lookup in
`check_for_duplicates_before_adding`.  The five collections are modelled
directly.  Every other attribute of the live object — the remaining mapped
columns of `UserMemoryProfile` (`id`, `user_id`, `created_at`,
`display_name`, `preferred_language`, `timezone`, `total_interactions`,
`last_significant_update`, `memory_version`, `updated_at`), the
relationship attributes, and whatever the SQLAlchemy machinery inherits —
is supplied by the black-box namespace `extraAttrs`: `none` when the name
is not an attribute (so `getattr` falls back to the default `[]`),
`some truthy` when it is a non-collection attribute with the given
truthiness. -/
def getProfileAttr (extraAttrs : String → Option Bool)
    (p : UserMemoryProfile) (note_type : String) : ProfileAttr :=
  if note_type = "learning_notes" then .collection p.learning_notes
  else if note_type = "knowledge_notes" then .collection p.knowledge_notes
  else if note_type = "interest_notes" then .collection p.interest_notes
  else if note_type = "behavior_notes" then .collection p.behavior_notes
  else if note_type = "preference_notes" then .collection p.preference_notes
  else match extraAttrs note_type with
    | some truthy => .nonList truthy
    | none => .absent

/-- The non-collection mapped columns of `UserMemoryProfile` that this
embedding carries, with their Python truthiness (strings truthy iff
nonempty, integers iff nonzero, nullable datetimes iff non-NULL) — a
concrete `extraAttrs` namespace for witnesses and counterexamples.  The
live object declares further columns (`created_at`, `display_name`,
`preferred_language`, `timezone`) and relationship attributes that a full
namespace would also report. -/
def declaredAttrs (p : UserMemoryProfile) : String → Option Bool := fun name =>
  if name = "id" then some (p.id != "")
  else if name = "user_id" then some (p.user_id != "")
  else if name = "total_interactions" then some (p.total_interactions != 0)
  else if name = "memory_version" then some (p.memory_version != 0)
  else if name = "last_significant_update" then some p.last_significant_update.isSome
  else if name = "updated_at" then some p.updated_at.isSome
  else none

/-- The exception raised when `_is_note_duplicate` iterates a truthy
non-list attribute that the dynamic lookup handed it (Python raises an
`AttributeError` or `TypeError` depending on the attribute's type; the
model uses one fixed message). -/
def dedupTypeError : String :=
  "existing notes of this note_type are not a list of note dicts"

/-- `MemoryConsolidator._count_total_notes`: total notes across all five
collections. -/
def count_total_notes (p : UserMemoryProfile) : Nat :=
  p.learning_notes.length + p.knowledge_notes.length + p.interest_notes.length +
    p.behavior_notes.length + p.preference_notes.length

/-- `MemoryConsolidator.MAX_NOTES_PER_CATEGORY`. -/
def MAX_NOTES_PER_CATEGORY : Nat := 15

/-- `MemoryConsolidator.should_trigger_consolidation`.  The elapsed-days
computation `(datetime.utcnow() - last_consolidation.created_at).days` and
the existence of a prior `MemoryConsolidation` row are supplied as
`days_since_last : Option Nat` (`none` = no prior consolidation row). -/
def should_trigger_consolidation (p : UserMemoryProfile)
    (days_since_last : Option Nat) : Bool :=
  let total := count_total_notes p
  if total > 50 then true
  else if p.collections.any (fun notes => notes.length > MAX_NOTES_PER_CATEGORY) then true
  else match days_since_last with
    | some d => decide (d > 7) && decide (total > 20)
    | none => decide (total > 20)

/-! ## Consolidation engine (`MemoryConsolidator` / `ConsolidationService`) -/

/-- The `consolidated_memory` JSON object of a consolidation plan.
`apply_consolidated_memory` reads each collection with
`consolidated_memory.get(name, [])`, so a missing key behaves as `[]`;
fields are total with that default folded in. -/
structure ConsolidatedMemory where
  learning_notes : List Note := []
  knowledge_notes : List Note := []
  interest_notes : List Note := []
  behavior_notes : List Note := []
  preference_notes : List Note := []
deriving Repr, DecidableEq

/-- A parsed consolidation plan (the JSON object returned by the generation
call, or built by `_fallback_consolidation`).  `consolidate_user_memory`
reads the list fields with `.get(key, [])` and reasoning with
`.get("reasoning", "")`; those defaults are folded in.  Ids are
`Option String` because `_fallback_consolidation` records `note.get("id")`,
which may be `None`. -/
structure ConsolidationResult where
  consolidated_memory : ConsolidatedMemory := {}
  consolidated_notes : List (Option String) := []
  removed_notes : List (Option String) := []
  new_summary_notes : List (Option String) := []
  reasoning : String := ""
deriving Repr, DecidableEq

/-- `MemoryConsolidation` row (the ConsolidationRecord audit entry). -/
structure MemoryConsolidation where
  user_memory_profile_id : String
  consolidation_type : String
  notes_before_count : Nat
  notes_after_count : Nat
  consolidated_notes : List (Option String)
  removed_notes : List (Option String)
  new_summary_notes : List (Option String)
  consolidation_reasoning : String
deriving Repr, DecidableEq

/-- `ConsolidationService.apply_consolidated_memory`: replace all five
collections wholesale, bump `memory_version`, stamp
`last_significant_update` and `updated_at`. -/
def apply_consolidated_memory (p : UserMemoryProfile) (cm : ConsolidatedMemory)
    (now : Nat) : UserMemoryProfile :=
  { p with
    learning_notes := cm.learning_notes
    knowledge_notes := cm.knowledge_notes
    interest_notes := cm.interest_notes
    behavior_notes := cm.behavior_notes
    preference_notes := cm.preference_notes
    memory_version := p.memory_version + 1
    last_significant_update := some now
    updated_at := some now }

/-- Sort key of `_fallback_consolidation`:
`(x.get("confidence", 0), x.get("created_at", ""))`. -/
def noteSortKey (n : Note) : ℚ × String := (n.confidence, n.created_at.getD "")

/-- Strict lexicographic order on the fallback sort key (Python tuple `<`). -/
def noteKeyLt (a b : Note) : Prop :=
  (noteSortKey a).1 < (noteSortKey b).1 ∨
    ((noteSortKey a).1 = (noteSortKey b).1 ∧ (noteSortKey a).2 < (noteSortKey b).2)

instance : DecidableRel noteKeyLt := fun a b => by
  unfold noteKeyLt; exact inferInstance

/-- The comparison used to realize Python's stable
`sorted(notes, key=..., reverse=True)`: `a` precedes `b` iff the key of `a`
is not strictly below the key of `b` (descending, ties keep list order). -/
def fallbackBefore (a b : Note) : Prop := ¬ noteKeyLt a b

instance : DecidableRel fallbackBefore := fun a b => by
  unfold fallbackBefore; exact inferInstance

/-- `sorted(notes, key=lambda x: (confidence, created_at), reverse=True)`. -/
def fallbackSorted (notes : List Note) : List Note :=
  notes.insertionSort fallbackBefore

/-- The notes a fallback consolidation keeps for one collection. -/
def fallbackKeep (notes : List Note) : List Note :=
  if notes.length > MAX_NOTES_PER_CATEGORY then
    (fallbackSorted notes).take MAX_NOTES_PER_CATEGORY
  else notes

/-- The ids a fallback consolidation records as removed for one collection. -/
def fallbackRemoved (notes : List Note) : List (Option String) :=
  if notes.length > MAX_NOTES_PER_CATEGORY then
    ((fallbackSorted notes).drop MAX_NOTES_PER_CATEGORY).map (·.id)
  else []

/-- `MemoryConsolidator._fallback_consolidation`: for every collection
exceeding `MAX_NOTES_PER_CATEGORY`, sort descending by
`(confidence, created_at)`, keep the top 15 and record the rest as removed
(collections processed in the insertion order of the categories dict). -/
def fallback_consolidation (p : UserMemoryProfile) : ConsolidationResult :=
  { consolidated_memory :=
      { learning_notes := fallbackKeep p.learning_notes
        knowledge_notes := fallbackKeep p.knowledge_notes
        interest_notes := fallbackKeep p.interest_notes
        behavior_notes := fallbackKeep p.behavior_notes
        preference_notes := fallbackKeep p.preference_notes }
    consolidated_notes := []
    removed_notes :=
      fallbackRemoved p.learning_notes ++ fallbackRemoved p.knowledge_notes ++
        fallbackRemoved p.interest_notes ++ fallbackRemoved p.behavior_notes ++
        fallbackRemoved p.preference_notes
    new_summary_notes := []
    reasoning := "Fallback consolidation: Removed low-confidence notes and old duplicates" }

/-- Outcome of the generation call inside `_llm_consolidate_memory`
(the LLM is an external black box):
* `raises`: `self.llm.ainvoke` raised — the exception propagates to the
  `except` block of `consolidate_user_memory`;
* `unparseable`: the response text did not JSON-decode
  (`json.JSONDecodeError`) — `_fallback_consolidation` runs;
* `parsed r`: the response text decoded to a JSON object `r`. -/
inductive ConsolidationLLMOutcome where
  | raises (msg : String)
  | unparseable
  | parsed (r : ConsolidationResult)
deriving Repr, DecidableEq

/-- The dict returned by `consolidate_user_memory`. -/
structure ConsolidateReturn where
  success : Bool
  error : Option String := none
  notes_before : Option Nat := none
  notes_after : Option Nat := none
  reasoning : Option String := none
deriving Repr, DecidableEq

/-- `MemoryConsolidator.consolidate_user_memory`: run the plan (LLM-guided,
falling back to `_fallback_consolidation` on a JSON decode failure), apply
it via `apply_consolidated_memory`, and log a `MemoryConsolidation` record.
Returns (result dict, profile after the call, the logged record if any).
When the generation call raises, the `except` block returns
`{success: False, error}` — nothing is applied and nothing is logged. -/
def consolidate_user_memory (p : UserMemoryProfile)
    (outcome : ConsolidationLLMOutcome) (consolidation_type : String)
    (now : Nat) :
    ConsolidateReturn × UserMemoryProfile × Option MemoryConsolidation :=
  let notes_before := count_total_notes p
  let run : ConsolidationResult →
      ConsolidateReturn × UserMemoryProfile × Option MemoryConsolidation :=
    fun r =>
      let p' := apply_consolidated_memory p r.consolidated_memory now
      let notes_after := count_total_notes p'
      let log : MemoryConsolidation :=
        { user_memory_profile_id := p.id
          consolidation_type := consolidation_type
          notes_before_count := notes_before
          notes_after_count := notes_after
          consolidated_notes := r.consolidated_notes
          removed_notes := r.removed_notes
          new_summary_notes := r.new_summary_notes
          consolidation_reasoning := r.reasoning }
      ({ success := true
         notes_before := some notes_before
         notes_after := some notes_after
         reasoning := some r.reasoning }, p', some log)
  match outcome with
  | .raises msg => ({ success := false, error := some msg }, p, none)
  | .unparseable => run (fallback_consolidation p)
  | .parsed r => run r

/-- A concrete sample note used by witnesses and counterexamples. -/
def sampleNote : Note :=
  { id := some "n1"
    content := "User is interested in the history of the Imams"
    evidence := "asked about it repeatedly"
    confidence := 4/5
    category := "interest"
    tags := ["history"]
    note_type := "interest_notes"
    created_at := some "2026-01-01T00:00:00" }

/-- A concrete freshly-created profile (the lazy-create defaults of
`MemoryService.get_or_create_profile`). -/
def emptyProfile : UserMemoryProfile :=
  { id := "p1"
    user_id := "u1"
    learning_notes := []
    knowledge_notes := []
    interest_notes := []
    behavior_notes := []
    preference_notes := []
    total_interactions := 0
    memory_version := 1
    last_significant_update := none
    updated_at := none }

/-- A consolidation plan, as the generation call may legally return it,
whose `learning_notes` collection holds 16 notes. -/
def overfullPlan : ConsolidationResult :=
  { consolidated_memory := { learning_notes := List.replicate 16 sampleNote }
    reasoning := "merged similar observations" }

/-! ## Primer cache freshness (`is_primer_fresh`, `PrimerService._get_cached_primer`) -/

/-- `PersonalizedPrimer` row (the fields the freshness protocol reads). -/
structure PersonalizedPrimer where
  user_id : String
  lesson_id : Nat
  personalized_bullets : List String
  generated_at : Nat
  inputs_hash : String
  lesson_version : Nat
  memory_version : Nat
  ttl_expires_at : Nat
  stale : Bool
deriving Repr, DecidableEq

/-- `Lesson` row (the fields the primer path reads).  `updated_at` is
nullable in the model and guarded by truthiness in `is_primer_fresh`. -/
structure Lesson where
  id : Nat
  updated_at : Option Nat
  tags : List String
deriving Repr, DecidableEq

/-- `db/utils/personalized_primers_utils.is_primer_fresh`: not stale, TTL
not expired (`ttl_expires_at < now` rejects), lesson not updated past
`lesson_version`, user memory not updated past `memory_version`; the last
two checks are skipped when `lesson.updated_at` / `user_memory_version`
are absent. -/
def is_primer_fresh (primer : PersonalizedPrimer) (lesson : Lesson)
    (user_memory_version : Option Nat) (now : Nat) : Bool :=
  if primer.stale then false
  else if primer.ttl_expires_at < now then false
  else if (match lesson.updated_at with
           | some u => decide (primer.lesson_version < u)
           | none => false) then false
  else if (match user_memory_version with
           | some m => decide (primer.memory_version < m)
           | none => false) then false
  else true

/-- The response dict of `generate_personalized_primer` /
`_get_cached_primer`. -/
structure PrimerResponse where
  personalized_bullets : List String
  generated_at : Option Nat
  from_cache : Bool
  stale : Bool
  personalized_available : Bool
deriving Repr, DecidableEq

/-- `PrimerService._get_cached_primer`: the primer row and lesson row
fetched from the store are supplied as `Option`s; `user_memory_version` is
the profile's `last_significant_update` (`_get_memory_version`).  Returns
the cached response iff the row exists, the lesson exists, and
`is_primer_fresh` holds at read time. -/
def get_cached_primer (primer : Option PersonalizedPrimer)
    (lesson : Option Lesson) (user_memory_version : Option Nat) (now : Nat) :
    Option PrimerResponse :=
  match primer with
  | none => none
  | some pr =>
    match lesson with
    | none => none
    | some l =>
      if is_primer_fresh pr l user_memory_version now then
        some { personalized_bullets := pr.personalized_bullets
               generated_at := some pr.generated_at
               from_cache := true
               stale := false
               personalized_available := true }
      else none

/-- A primer at the TTL boundary: `ttl_expires_at = 100`, checked at
`now = 100`, all other conditions satisfied. -/
def boundaryPrimer : PersonalizedPrimer :=
  { user_id := "u1"
    lesson_id := 1
    personalized_bullets := ["bullet one", "bullet two"]
    generated_at := 90
    inputs_hash := "h"
    lesson_version := 50
    memory_version := 50
    ttl_expires_at := 100
    stale := false }

/-- A concrete lesson row last updated at time 50. -/
def sampleLesson : Lesson := { id := 1, updated_at := some 50, tags := ["prayer"] }

/-- A fully fresh primer row used by the C5 witness. -/
def freshPrimer : PersonalizedPrimer :=
  { boundaryPrimer with ttl_expires_at := 200 }

/-! ## Primer signal-quality gate (`PrimerService._generate_new_primer`) -/

/-- Modelled from the spec: `SIGNAL_QUALITY_THRESHOLD` is imported by
`primer_service.py` and `embedding_service.py` from `core.config`, but its
defining assignment is missing from the sources under verification; the
spec fixes the similarity-mode acceptance threshold at 0.6. -/
def SIGNAL_QUALITY_THRESHOLD : ℚ := 0.6

/-- The acceptance threshold picked in `_generate_new_primer`:
`SIGNAL_QUALITY_THRESHOLD` when the signals are similarity-based, `0.5`
for the rule-based fallback
(`threshold = SIGNAL_QUALITY_THRESHOLD if user_signals.get("similarity_based") else 0.5`). -/
def primer_threshold (similarity_based : Bool) : ℚ :=
  if similarity_based then SIGNAL_QUALITY_THRESHOLD else 0.5

/-- The signal-quality gate of `_generate_new_primer`: the fallback
response is returned iff `signal_quality < threshold`; this function is
`true` exactly when generation proceeds. -/
def passes_quality_gate (similarity_based : Bool) (signal_quality : ℚ) : Bool :=
  if signal_quality < primer_threshold similarity_based then false else true

/-- `PrimerService._assess_similarity_quality`: the similarity-mode quality
score is the average similarity capped at `SIGNAL_QUALITY_THRESHOLD`
(`min(avg_similarity, SIGNAL_QUALITY_THRESHOLD)`). -/
def assess_similarity_quality (avg_similarity : ℚ) : ℚ :=
  min avg_similarity SIGNAL_QUALITY_THRESHOLD

/-! ## Duplicate filter (`MemoryConsolidator._is_note_duplicate`) -/

/-- Dot product of two embedding vectors (`np.dot`); vectors of unequal
length are truncated to the common prefix (the embedder always produces a
fixed dimensionality, so this case does not arise in the modelled runs). -/
def dotQ : List ℚ → List ℚ → ℚ
  | [], _ => 0
  | _, [] => 0
  | a :: as, b :: bs => a * b + dotQ as bs

/-- Cosine similarity of two embedding vectors, as `_is_note_duplicate`
computes it: `np.dot(a, b) / (np.linalg.norm(a) * np.linalg.norm(b))`.
Real-valued because of the square roots in the norms. -/
noncomputable def cosineSim (a b : List ℚ) : ℝ :=
  (dotQ a b : ℝ) / (Real.sqrt (dotQ a a : ℚ) * Real.sqrt (dotQ b b : ℚ))

/-- Executable rendering of the comparison `t < cosineSim a b` for a
threshold `t ≥ 0`: positive dot product and squared comparison.
`cosGT_iff_cosineSim` proves it equivalent to the real-valued comparison
for nonzero vectors. -/
def cosGT (a b : List ℚ) (t : ℚ) : Bool :=
  decide (0 < dotQ a b) && decide (t ^ 2 * (dotQ a a * dotQ b b) < dotQ a b ^ 2)

/-- `MemoryConsolidator.SIMILARITY_THRESHOLD`. -/
def SIMILARITY_THRESHOLD : ℚ := 0.6

/-- `MemoryConsolidator._is_note_duplicate`: embed the candidate content
and all existing contents (the sentence-transformer embedder is the
black-box parameter `embed`), and report a duplicate iff the maximum
cosine similarity strictly exceeds `SIMILARITY_THRESHOLD`.  An empty
existing collection is never a duplicate.  For a nonempty collection the
maximum similarity exceeds the threshold iff some similarity does, which
is how the comparison is realized here; `cosGT_iff_cosineSim` ties the
executable comparison to the real-valued `cosineSim`. -/
def is_note_duplicate (embed : String → List ℚ) (new_note_content : String)
    (existing_notes : List Note) : Bool :=
  match existing_notes with
  | [] => false
  | _ :: _ =>
    existing_notes.any fun n =>
      cosGT (embed n.content) (embed new_note_content) SIMILARITY_THRESHOLD

/-- `MemoryConsolidator.check_for_duplicates_before_adding`: keep, in
order, the candidates that are not duplicates of the *existing* notes of
their own collection (`note.get("note_type", "learning_notes")`, looked up
with `getattr(memory_profile, note_type, []) or []`); candidates of one
batch are not checked against each other.  When the lookup hits a truthy
non-collection attribute, `_is_note_duplicate` raises while iterating it
and the whole call aborts (`Except.error`); a falsy attribute or a missing
name is replaced by `[]` by the `or []` / `getattr` default and behaves as
an empty collection. -/
def check_for_duplicates_before_adding (extraAttrs : String → Option Bool)
    (embed : String → List ℚ) (p : UserMemoryProfile) :
    List Note → Except String (List Note)
  | [] => Except.ok []
  | note :: rest =>
    match getProfileAttr extraAttrs p note.note_type with
    | ProfileAttr.nonList true => Except.error dedupTypeError
    | attr =>
      let existing :=
        match attr with
        | ProfileAttr.collection notes => notes
        | _ => []
      match check_for_duplicates_before_adding extraAttrs embed p rest with
      | Except.error e => Except.error e
      | Except.ok tail =>
          Except.ok (if is_note_duplicate embed note.content existing then tail
                     else note :: tail)

/-! ## Note storage (`MemoryService.add_notes`) and the note vector index
(`EmbeddingService.store_note_embeddings_batch`) -/

/-- `NoteEmbedding` row: at most one per `(user_id, note_id)`. -/
structure NoteEmbedding where
  user_id : String
  note_id : String
  note_type : String
  content_hash : String
  embedding : List ℚ
deriving Repr, DecidableEq

/-- The stamping step of `add_notes`:
`note_copy["id"] = note_copy.get("id") or str(uuid.uuid4())` and
`note_copy["created_at"] = note_copy.get("created_at") or datetime.utcnow().isoformat()`.
Fresh uuids are supplied by `uuid : Nat → String` (the value drawn for the
i-th note of the batch); `now_iso` is the formatted current time.  A
falsy id (absent or `""`) is replaced. -/
def stampNote (uuid : Nat → String) (now_iso : String) (i : Nat)
    (note : Note) : Note :=
  { note with
    id := some (match note.id with
                | some s => if s = "" then uuid i else s
                | none => uuid i)
    created_at := some (match note.created_at with
                        | some s => if s = "" then now_iso else s
                        | none => now_iso) }

/-- One step of the `elif` chain of `add_notes`: append the stamped note
to the collection matching its `note_type`; an unrecognized type appends
nowhere. -/
def addNoteToCollections (p : UserMemoryProfile) (note : Note) :
    UserMemoryProfile :=
  if note.note_type = "learning_notes" then
    { p with learning_notes := p.learning_notes ++ [note] }
  else if note.note_type = "knowledge_notes" then
    { p with knowledge_notes := p.knowledge_notes ++ [note] }
  else if note.note_type = "interest_notes" then
    { p with interest_notes := p.interest_notes ++ [note] }
  else if note.note_type = "behavior_notes" then
    { p with behavior_notes := p.behavior_notes ++ [note] }
  else if note.note_type = "preference_notes" then
    { p with preference_notes := p.preference_notes ++ [note] }
  else p

/-- Row lookup by the `(user_id, note_id)` unique key. -/
def findRow (table : List NoteEmbedding) (user_id note_id : String) :
    Option NoteEmbedding :=
  table.find? fun r => r.user_id == user_id && r.note_id == note_id

/-- In-place update of the row keyed `(user_id, note_id)`. -/
def updateRow (table : List NoteEmbedding) (user_id note_id : String)
    (content_hash : String) (embedding : List ℚ) : List NoteEmbedding :=
  table.map fun r =>
    if r.user_id == user_id && r.note_id == note_id then
      { r with content_hash := content_hash, embedding := embedding }
    else r

/-- The selection step of `store_note_embeddings_batch`: a note needs a
(new or refreshed) embedding iff it has a truthy id and content and either
no row exists for `(user_id, id)` or the stored `content_hash` differs
from the hash of the current content.  `hashF` stands for
`compute_content_hash` (SHA-256, an external library call). -/
def noteNeedsEmbedding (hashF : String → String) (table : List NoteEmbedding)
    (user_id : String) (note : Note) : Bool :=
  match note.id with
  | none => false
  | some nid =>
    if nid == "" || note.content == "" then false
    else match findRow table user_id nid with
      | some row => hashF note.content != row.content_hash
      | none => true

/-- Write one freshly generated embedding: update the existing row if one
exists for the key, otherwise insert a new row. -/
def applyOneEmbedding (hashF : String → String) (user_id note_type : String)
    (table : List NoteEmbedding) (ne : Note × List ℚ) : List NoteEmbedding :=
  match ne.1.id with
  | none => table
  | some nid =>
    if (findRow table user_id nid).isSome then
      updateRow table user_id nid (hashF ne.1.content) ne.2
    else
      table ++ [{ user_id := user_id
                  note_id := nid
                  note_type := note_type
                  content_hash := hashF ne.1.content
                  embedding := ne.2 }]

/-- `EmbeddingService.store_note_embeddings_batch` for one note type:
select the notes needing embeddings, call the batched embedding API once
(`embedBatch`, a black box that may raise — `Except.error`), and upsert
the resulting rows.  An API failure propagates to the caller. -/
def store_note_embeddings_batch (hashF : String → String)
    (embedBatch : List String → Except String (List (List ℚ)))
    (table : List NoteEmbedding) (user_id : String) (notes : List Note)
    (note_type : String) : Except String (List NoteEmbedding) :=
  let toEmbed := notes.filter (noteNeedsEmbedding hashF table user_id)
  if toEmbed.isEmpty then .ok table
  else
    match embedBatch (toEmbed.map (·.content)) with
    | .error e => .error e
    | .ok embs =>
        .ok ((toEmbed.zip embs).foldl (applyOneEmbedding hashF user_id note_type) table)

/-- The distinct `note_type` values of a batch, in first-appearance order
(the iteration order of the `notes_by_type` dict). -/
def noteTypesInOrder (notes : List Note) : List String :=
  notes.foldl (fun acc n => if n.note_type ∈ acc then acc else acc ++ [n.note_type]) []

/-- `MemoryService._generate_note_embeddings`: group the stamped notes by
type and store each group in one batch; *every* failure is caught and
logged (`"Don't fail the main operation if embedding generation fails"`),
leaving that group's rows unchanged. -/
def generate_note_embeddings (hashF : String → String)
    (embedBatch : List String → Except String (List (List ℚ)))
    (table : List NoteEmbedding) (user_id : String) (notes : List Note) :
    List NoteEmbedding :=
  (noteTypesInOrder notes).foldl
    (fun tbl t =>
      match store_note_embeddings_batch hashF embedBatch tbl user_id
          (notes.filter (fun n => n.note_type == t)) t with
      | .ok tbl' => tbl'
      | .error _ => tbl)
    table

/-- `MemoryService.add_notes`: stamp ids and `created_at`, append each
stamped note to the collection matching its `note_type`, bump
`total_interactions`, stamp the metadata timestamps, then generate
embeddings for the stamped notes.  Returns the updated profile and
note-embedding table; there is no failure channel. -/
def add_notes (hashF : String → String)
    (embedBatch : List String → Except String (List (List ℚ)))
    (uuid : Nat → String) (now : Nat) (now_iso : String)
    (p : UserMemoryProfile) (table : List NoteEmbedding)
    (new_notes : List Note) : UserMemoryProfile × List NoteEmbedding :=
  let stamped := new_notes.mapIdx fun i note => stampNote uuid now_iso i note
  let p1 := stamped.foldl addNoteToCollections p
  let p2 := { p1 with
              total_interactions := p1.total_interactions + 1
              last_significant_update := some now
              updated_at := some now }
  (p2, generate_note_embeddings hashF embedBatch table p.user_id stamped)

/-- Embedder for the C2 counterexample: the candidate content maps to the
unit vector `[1, 0]`, every other content to the unit vector
`[3/5, 4/5]`, so existing-vs-candidate cosine similarity is exactly
3/5 = 0.6. -/
def embedC2 (s : String) : List ℚ :=
  if s = "candidate observation" then [1, 0] else [3/5, 4/5]

/-- The stored note of the C2 counterexample. -/
def existingNoteC2 : Note :=
  { sampleNote with content := "existing observation" }

/-- The candidate note of the C2 counterexample (same collection). -/
def candidateNoteC2 : Note :=
  { sampleNote with id := none, content := "candidate observation" }

/-- Profile whose `interest_notes` collection holds the stored note. -/
def profileC2 : UserMemoryProfile :=
  { emptyProfile with interest_notes := [existingNoteC2] }

/-- A learning note with an already-stamped id and timestamp. -/
def noteL : Note := { sampleNote with note_type := "learning_notes" }

/-! ## Signal retrieval (`EmbeddingService.find_similar_notes_to_lesson`) -/

/-- Modelled from the spec: `NOTE_FILTER_THRESHOLD` is imported from
`core.config` but its defining assignment is missing from the sources
under verification; the spec (and the `find_similar_notes_to_lesson`
docstring, "default: 0.4") fix it at 0.4. -/
def NOTE_FILTER_THRESHOLD : ℚ := 0.4

/-- `LessonChunkEmbedding` row (the fields retrieval reads). -/
structure LessonChunkEmbedding where
  lesson_id : Nat
  chunk_index : Nat
  chunk_text : String
  content_hash : String
  embedding : List ℚ
deriving Repr, DecidableEq

/-- SQL `GREATEST` over a list of similarity scores (nonempty in every
reachable call; `0` pads the impossible empty case). -/
def greatest : List ℚ → ℚ
  | [] => 0
  | x :: xs => xs.foldl max x

/-- The per-note score of the retrieval query: the maximum over all chunks
of `1 - (embedding <=> chunk)`, where `dist` is the pgvector
cosine-distance operator (an external black box), so `1 - dist` is cosine
similarity. -/
def maxChunkSimilarity (dist : List ℚ → List ℚ → ℚ)
    (chunks : List LessonChunkEmbedding) (v : List ℚ) : ℚ :=
  greatest (chunks.map fun c => 1 - dist v c.embedding)

/-- `EmbeddingService.find_similar_notes_to_lesson`: no chunk embeddings ⇒
empty result; otherwise the SQL keeps the current user's note-embedding
rows whose max-similarity is `≥ threshold`, ordered by that score
descending, and the Python loop then filters by `note_types`
(`none` ⇒ keep all).  Returns `(note_id, note_type, max_similarity)`
tuples. -/
def find_similar_notes_to_lesson (dist : List ℚ → List ℚ → ℚ)
    (note_rows : List NoteEmbedding) (chunks : List LessonChunkEmbedding)
    (user_id : String) (threshold : ℚ) (note_types : Option (List String)) :
    List (String × String × ℚ) :=
  if chunks.isEmpty then []
  else
    let scored := (note_rows.filter fun r =>
        r.user_id == user_id &&
          decide (threshold ≤ maxChunkSimilarity dist chunks r.embedding)).map
      fun r => (r.note_id, r.note_type, maxChunkSimilarity dist chunks r.embedding)
    let ordered := List.insertionSort (fun a b => b.2.2 ≤ a.2.2) scored
    match note_types with
    | none => ordered
    | some ts => ordered.filter fun x => decide (x.2.1 ∈ ts)

/-- `EmbeddingService.calculate_signal_quality`: the arithmetic mean of the
filtered notes' scores, `0` when none were kept. -/
def calculate_signal_quality (filtered_notes : List (String × String × ℚ)) : ℚ :=
  if filtered_notes.isEmpty then 0
  else (filtered_notes.map fun x => x.2.2).sum / filtered_notes.length

/-- A concrete pgvector distance for witnesses: distance `1 - dot`, so the
similarity `1 - dist` is the dot product. -/
def distW : List ℚ → List ℚ → ℚ := fun v w => 1 - dotQ v w

/-- A concrete lesson chunk row. -/
def chunkW : LessonChunkEmbedding :=
  { lesson_id := 1, chunk_index := 0, chunk_text := "Section: Prayer"
    content_hash := "h", embedding := [1, 0] }

/-- A note-embedding row whose max similarity to `chunkW` is 1/2 ≥ 0.4. -/
def rowKept : NoteEmbedding :=
  { user_id := "u1", note_id := "n1", note_type := "learning_notes"
    content_hash := "c1", embedding := [1/2, 0] }

/-- A note-embedding row whose max similarity to `chunkW` is 3/10 < 0.4. -/
def rowDropped : NoteEmbedding :=
  { user_id := "u1", note_id := "n2", note_type := "interest_notes"
    content_hash := "c2", embedding := [3/10, 0] }

/-! ## Interaction analyzer (`UniversalMemoryAgent.analyze_interaction`) -/

/-- `MemoryEvent` row.  `notes_added` defaults to `[]` at creation
(`notes_added or []` in the repository). -/
structure MemoryEvent where
  id : Nat
  user_memory_profile_id : String
  event_type : String
  processing_status : String
  processing_reasoning : Option String
  notes_added : List Note
  processed_at : Option Nat
deriving Repr, DecidableEq

/-- The storage visible to one SQLAlchemy session. -/
structure Store where
  profile : UserMemoryProfile
  events : List MemoryEvent
  consolidations : List MemoryConsolidation
  note_embeddings : List NoteEmbedding
  next_event_id : Nat
deriving Repr, DecidableEq

/-- Session state: the committed database plus the current (uncommitted)
view.  Mutations act on `current`; `commit` publishes it; `rollback`
restores the committed view. -/
structure DBState where
  committed : Store
  current : Store
deriving Repr, DecidableEq

/-- `session.commit()`. -/
def DBState.commit (st : DBState) : DBState := { st with committed := st.current }

/-- `session.rollback()`. -/
def DBState.rollback (st : DBState) : DBState := { st with current := st.committed }

/-- `MemoryService.create_event` (with the flush making the id available):
insert a new event row with the given status into the current view. -/
def create_event (st : DBState) (profile_id event_type status : String) :
    MemoryEvent × DBState :=
  let ev : MemoryEvent :=
    { id := st.current.next_event_id
      user_memory_profile_id := profile_id
      event_type := event_type
      processing_status := status
      processing_reasoning := none
      notes_added := []
      processed_at := none }
  (ev, { st with current := { st.current with
           events := st.current.events ++ [ev]
           next_event_id := st.current.next_event_id + 1 } })

/-- `MemoryService.update_event_status` (repository `update_status`): set
the status, optionally the reasoning and `notes_added`, and stamp
`processed_at`, on the row with the given id. -/
def update_event_status (st : DBState) (event_id : Nat) (status : String)
    (reasoning : Option String) (notes_added : Option (List Note)) (now : Nat) :
    DBState :=
  { st with current := { st.current with
      events := st.current.events.map fun ev =>
        if ev.id = event_id then
          { ev with
            processing_status := status
            processing_reasoning :=
              (match reasoning with
               | some r => some r
               | none => ev.processing_reasoning)
            notes_added :=
              (match notes_added with
               | some l => l
               | none => ev.notes_added)
            processed_at := some now }
        else ev } }

/-- The parsed extraction result of `_analyze_universal_interaction`.  A
JSON decode failure is folded by the source itself into
`{should_update_memory: false, reasoning: "Failed to parse …", new_notes: []}`,
so only a *raising* LLM call is a separate outcome
(`Except.error` in `analyze_interaction`). -/
structure AnalysisResult where
  should_update_memory : Bool
  reasoning : String
  new_notes : List Note
deriving Repr, DecidableEq

/-- The dict returned by `analyze_interaction` (missing keys as `none`/`[]`). -/
structure AnalyzeReturn where
  memory_updated : Bool
  reasoning : Option String := none
  error : Option String := none
  notes_added : List Note := []
  event_id : Nat
  interaction_type : String
deriving Repr, DecidableEq

/-- The `except Exception` block of `analyze_interaction` (lines 242-266):
roll back the active transaction, create a fresh `failed` event, stamp it
with `"Error during analysis: " + str(e)`, commit it in its own
transaction, and return the failure dict. -/
def analyze_failure_path (st1 : DBState) (interaction_type : String)
    (e : String) (now : Nat) : AnalyzeReturn × DBState :=
  let st2 := st1.rollback
  let failure := create_event st2 st2.current.profile.id interaction_type "failed"
  let st4 := update_event_status failure.2 failure.1.id "failed"
    (some ("Error during analysis: " ++ e)) (some []) now
  let st5 := st4.commit
  ({ memory_updated := false
     error := some e
     event_id := failure.1.id
     interaction_type := interaction_type }, st5)

/-- `UniversalMemoryAgent.analyze_interaction`.  External effects appear as
parameters: `extraAttrs` (the non-collection attribute namespace of the
profile object, see `getProfileAttr`), `embed` (dedup embedder),
`hashF`/`embedBatch` (note vector index), `uuid`/`now`/`now_iso` (id and
clock draws), `days_since_last` (the elapsed-days reading of the
consolidation history used by `should_trigger_consolidation`),
`consolidationLLM` (the consolidation generation call) and `analysis` (the
extraction call: `Except.error` when it raises).  Flow: create a pending
event; on success of the extraction, dedup-filter (which itself can raise
on a truthy non-collection attribute), append survivors, maybe
consolidate, mark the event processed, commit once; any raised exception
lands in `analyze_failure_path`. -/
def analyze_interaction
    (extraAttrs : String → Option Bool)
    (embed : String → List ℚ) (hashF : String → String)
    (embedBatch : List String → Except String (List (List ℚ)))
    (uuid : Nat → String) (now : Nat) (now_iso : String)
    (days_since_last : Option Nat)
    (consolidationLLM : ConsolidationLLMOutcome)
    (interaction_type : String)
    (analysis : Except String AnalysisResult)
    (st : DBState) : AnalyzeReturn × DBState :=
  let created := create_event st st.current.profile.id interaction_type "pending"
  let memory_event := created.1
  let st1 := created.2
  match analysis with
  | .error e => analyze_failure_path st1 interaction_type e now
  | .ok ar =>
      if ar.should_update_memory then
        match check_for_duplicates_before_adding extraAttrs embed
            st1.current.profile ar.new_notes with
        | .error e => analyze_failure_path st1 interaction_type e now
        | .ok filtered =>
          let st2 :=
            if filtered.isEmpty then st1
            else
              let added := add_notes hashF embedBatch uuid now now_iso
                st1.current.profile st1.current.note_embeddings filtered
              let stA := { st1 with current := { st1.current with
                  profile := added.1, note_embeddings := added.2 } }
              if should_trigger_consolidation added.1 days_since_last then
                let consolidated := consolidate_user_memory added.1
                  consolidationLLM "automatic" now
                { stA with current := { stA.current with
                    profile := consolidated.2.1
                    consolidations := stA.current.consolidations ++
                      (match consolidated.2.2 with
                       | some l => [l]
                       | none => []) } }
              else stA
          let st3 := update_event_status st2 memory_event.id "processed"
            (some ar.reasoning) (some filtered) now
          let st4 := st3.commit
          ({ memory_updated := true
             reasoning := some ar.reasoning
             notes_added := filtered
             event_id := memory_event.id
             interaction_type := interaction_type }, st4)
      else
        let st3 := update_event_status st1 memory_event.id "processed"
          (some ar.reasoning) (some []) now
        let st4 := st3.commit
        ({ memory_updated := false
           reasoning := some ar.reasoning
           notes_added := []
           event_id := memory_event.id
           interaction_type := interaction_type }, st4)

/-- An initial store with one fresh profile and no rows. -/
def store0 : Store :=
  { profile := emptyProfile
    events := []
    consolidations := []
    note_embeddings := []
    next_event_id := 0 }

/-- A session on the initial store with nothing pending. -/
def db0 : DBState := { committed := store0, current := store0 }

/-- An extracted note carrying an unrecognized `note_type` that is not an
attribute of the profile object either. -/
def weirdNote : Note := { sampleNote with id := none, note_type := "misc_notes" }

/-- An extracted note whose `note_type` collides with the profile's
`user_id` column. -/
def userIdNote : Note := { sampleNote with id := none, note_type := "user_id" }

/-! ## Theorems -/

/-- **C3.** `should_trigger_consolidation` returns true iff: total notes
across all five collections > 50; or some single collection > 15; or no
prior consolidation exists and total > 20; or more than 7 days have elapsed
since the last consolidation and total > 20. -/
theorem C3_should_trigger_consolidation_iff (p : UserMemoryProfile)
    (days : Option Nat) :
    should_trigger_consolidation p days = true ↔
      (count_total_notes p > 50 ∨
       (∃ c ∈ p.collections, c.length > 15) ∨
       (days = none ∧ count_total_notes p > 20) ∨
       (∃ d, days = some d ∧ d > 7 ∧ count_total_notes p > 20)) := by
  cases days with
  | none =>
      simp only [should_trigger_consolidation, MAX_NOTES_PER_CATEGORY,
        List.any_eq_true, decide_eq_true_eq]
      by_cases h50 : count_total_notes p > 50 <;>
        by_cases hc : ∃ c ∈ p.collections, c.length > 15 <;>
          simp_all
  | some d =>
      simp only [should_trigger_consolidation, MAX_NOTES_PER_CATEGORY,
        List.any_eq_true, decide_eq_true_eq]
      by_cases h50 : count_total_notes p > 50 <;>
        by_cases hc : ∃ c ∈ p.collections, c.length > 15 <;>
          simp_all

/-- Every collection a fallback consolidation keeps has at most
`MAX_NOTES_PER_CATEGORY` notes. -/
theorem fallbackKeep_length_le (l : List Note) :
    (fallbackKeep l).length ≤ MAX_NOTES_PER_CATEGORY := by
  unfold fallbackKeep
  split
  · simp [min_le_left]
  · omega

/-- **C1 (counterexample).** An LLM-guided consolidation run applies the
returned collections wholesale: with a parseable plan holding 16
`learning_notes`, the run completes successfully and the profile ends with
a collection of 16 > 15 notes. -/
theorem C1_counterexample :
    (consolidate_user_memory emptyProfile
        (.parsed overfullPlan) "automatic" 0).1.success = true ∧
    ((consolidate_user_memory emptyProfile
        (.parsed overfullPlan) "automatic" 0).2.1).learning_notes.length = 16 := by
  constructor
  · rfl
  · rfl

/-- **C1 (amended).** After a fallback consolidation run (generation output
unparseable), once the resulting five collections are applied to the
profile no single collection contains more than 15 notes.  (An LLM-guided
run applies the plan's collections wholesale, without enforcing the cap.) -/
theorem C1_fallback_consolidation_cap (p : UserMemoryProfile)
    (ctype : String) (now : Nat) :
    ((consolidate_user_memory p .unparseable ctype now).2.1).learning_notes.length ≤ 15 ∧
    ((consolidate_user_memory p .unparseable ctype now).2.1).knowledge_notes.length ≤ 15 ∧
    ((consolidate_user_memory p .unparseable ctype now).2.1).interest_notes.length ≤ 15 ∧
    ((consolidate_user_memory p .unparseable ctype now).2.1).behavior_notes.length ≤ 15 ∧
    ((consolidate_user_memory p .unparseable ctype now).2.1).preference_notes.length ≤ 15 :=
  ⟨fallbackKeep_length_le _, fallbackKeep_length_le _, fallbackKeep_length_le _,
   fallbackKeep_length_le _, fallbackKeep_length_le _⟩

/-- **C4 (counterexample).** When the generation call raises (e.g. the LLM
is unreachable), `consolidate_user_memory` persists no ConsolidationRecord
at all: it returns `{success: False, error}` with the record slot `none`. -/
theorem C4_counterexample :
    (consolidate_user_memory emptyProfile
        (.raises "LLM unreachable") "automatic" 0).2.2 = none ∧
    (consolidate_user_memory emptyProfile
        (.raises "LLM unreachable") "automatic" 0).1 =
      { success := false, error := some "LLM unreachable" } := by
  exact ⟨rfl, rfl⟩

/-- **C4 (amended).** Whenever the generation call returns output — whether
it parses to a plan object or fails JSON decoding and the deterministic
fallback runs — `consolidate_user_memory` persists a ConsolidationRecord
with the before/after note counts and the plan's reasoning, and reports
success.  (When the generation call itself raises, the run aborts with
`{success: False}` and no record is persisted.) -/
theorem C4_record_persisted_when_llm_returns (p : UserMemoryProfile)
    (outcome : ConsolidationLLMOutcome) (ctype : String) (now : Nat)
    (h : ∀ msg, outcome ≠ .raises msg) :
    ∃ entry : MemoryConsolidation,
      (consolidate_user_memory p outcome ctype now).2.2 = some entry ∧
      entry.notes_before_count = count_total_notes p ∧
      entry.notes_after_count =
        count_total_notes (consolidate_user_memory p outcome ctype now).2.1 ∧
      (consolidate_user_memory p outcome ctype now).1.success = true ∧
      entry.consolidation_reasoning =
        (match outcome with
         | .parsed r => r.reasoning
         | _ => (fallback_consolidation p).reasoning) := by
  cases outcome with
  | raises msg => exact absurd rfl (h msg)
  | unparseable => exact ⟨_, rfl, rfl, rfl, rfl, rfl⟩
  | parsed r => exact ⟨_, rfl, rfl, rfl, rfl, rfl⟩

/-- Witness for C4 (amended): a concrete fallback run on `emptyProfile`
persists a record. -/
theorem C4_record_persisted_when_llm_returns_witness :
    ∃ entry : MemoryConsolidation,
      (consolidate_user_memory emptyProfile .unparseable "manual" 5).2.2 = some entry ∧
      entry.notes_before_count = count_total_notes emptyProfile ∧
      entry.notes_after_count =
        count_total_notes (consolidate_user_memory emptyProfile .unparseable "manual" 5).2.1 ∧
      (consolidate_user_memory emptyProfile .unparseable "manual" 5).1.success = true ∧
      entry.consolidation_reasoning =
        (match (ConsolidationLLMOutcome.unparseable : ConsolidationLLMOutcome) with
         | .parsed r => r.reasoning
         | _ => (fallback_consolidation emptyProfile).reasoning) :=
  C4_record_persisted_when_llm_returns emptyProfile .unparseable "manual" 5
    (fun _ hmsg => ConsolidationLLMOutcome.noConfusion hmsg)

/-- `is_primer_fresh` returns true iff all four conditions hold, with the
TTL condition being `now ≤ ttl_expires_at` (inclusive at the boundary). -/
theorem is_primer_fresh_iff (primer : PersonalizedPrimer) (lesson : Lesson)
    (umv : Option Nat) (now : Nat) :
    is_primer_fresh primer lesson umv now = true ↔
      (primer.stale = false ∧ now ≤ primer.ttl_expires_at ∧
       (∀ u, lesson.updated_at = some u → ¬ primer.lesson_version < u) ∧
       (∀ m, umv = some m → ¬ primer.memory_version < m)) := by
  unfold is_primer_fresh
  cases hl : lesson.updated_at <;> cases hm : umv <;>
    by_cases hs : primer.stale <;> simp_all

/-- **C5 (counterexample).** At `now = ttl_expires_at` the cached primer is
still served with `from_cache = true`, although `ttl_expires_at` does not
lie in the future: the TTL test of `is_primer_fresh` is inclusive
(`ttl_expires_at < now` rejects), so the claim's "lies in the future"
condition is not necessary for a cache hit. -/
theorem C5_counterexample :
    (∃ r, get_cached_primer (some boundaryPrimer) (some sampleLesson)
        (some 50) 100 = some r ∧ r.from_cache = true) ∧
    ¬ (100 < boundaryPrimer.ttl_expires_at) := by
  exact ⟨⟨_, rfl, rfl⟩, by decide⟩

/-- **C5 (amended).** A cached primer is returned with `from_cache = true`
iff all four freshness conditions hold at read time: not stale,
`ttl_expires_at` not yet passed (`now ≤ ttl_expires_at`), the lesson's
`updated_at` not advanced past `lesson_version`, and the user's memory not
updated past `memory_version`; in particular, if the lesson's `updated_at`
advances past `lesson_version` the freshness check returns false
regardless of TTL. -/
theorem C5_cache_freshness (primer : PersonalizedPrimer) (lesson : Lesson)
    (umv : Option Nat) (now : Nat) :
    ((∃ r, get_cached_primer (some primer) (some lesson) umv now = some r ∧
        r.from_cache = true) ↔
      (primer.stale = false ∧ now ≤ primer.ttl_expires_at ∧
       (∀ u, lesson.updated_at = some u → ¬ primer.lesson_version < u) ∧
       (∀ m, umv = some m → ¬ primer.memory_version < m))) ∧
    (∀ u, lesson.updated_at = some u → primer.lesson_version < u →
      is_primer_fresh primer lesson umv now = false) := by
  constructor
  · constructor
    · rintro ⟨r, hr, -⟩
      by_cases hf : is_primer_fresh primer lesson umv now = true
      · exact (is_primer_fresh_iff primer lesson umv now).mp hf
      · simp [get_cached_primer, hf] at hr
    · intro h
      have hf := (is_primer_fresh_iff primer lesson umv now).mpr h
      refine ⟨{ personalized_bullets := primer.personalized_bullets
                generated_at := some primer.generated_at
                from_cache := true
                stale := false
                personalized_available := true }, ?_, rfl⟩
      simp [get_cached_primer, hf]
  · intro u hu hlt
    by_cases hf : is_primer_fresh primer lesson umv now = true
    · exact absurd hlt (((is_primer_fresh_iff primer lesson umv now).mp hf).2.2.1 u hu)
    · simpa using hf

/-- Witness for C5 (amended): at `now = 90 ≤ 200` with no version drift,
the cache serves the primer; and the lesson-version clause fires on a
lesson updated at time 60 > `lesson_version = 50`. -/
theorem C5_cache_freshness_witness :
    (∃ r, get_cached_primer (some freshPrimer) (some sampleLesson)
        (some 50) 90 = some r ∧ r.from_cache = true) ∧
    is_primer_fresh freshPrimer { sampleLesson with updated_at := some 60 }
      (some 50) 90 = false :=
  ⟨(C5_cache_freshness freshPrimer sampleLesson (some 50) 90).1.mpr
      ⟨rfl, by decide,
       fun u hu => by injection hu with h; subst h; decide,
       fun m hm => by injection hm with h; subst h; decide⟩,
   (C5_cache_freshness freshPrimer { sampleLesson with updated_at := some 60 }
      (some 50) 90).2 60 rfl (by decide)⟩

/-- **C6.** The signal-quality acceptance gate is inclusive and
mode-dependent: in similarity mode a score of exactly 0.6 is accepted and
any score strictly below 0.6 (e.g. 0.59999) is rejected with the fallback
response; in rule-based mode the gate accepts exactly the scores `≥ 0.5`. -/
theorem C6_quality_gate_inclusive :
    passes_quality_gate true 0.6 = true ∧
    (∀ q : ℚ, q < 0.6 → passes_quality_gate true q = false) ∧
    passes_quality_gate true 0.59999 = false ∧
    (∀ q : ℚ, passes_quality_gate false q = true ↔ 0.5 ≤ q) := by
  refine ⟨?_, ?_, ?_, ?_⟩
  · norm_num [passes_quality_gate, primer_threshold, SIGNAL_QUALITY_THRESHOLD]
  · intro q hq
    have : q < primer_threshold true := by
      simp only [primer_threshold, SIGNAL_QUALITY_THRESHOLD, if_true]
      exact hq
    simp [passes_quality_gate, this]
  · norm_num [passes_quality_gate, primer_threshold, SIGNAL_QUALITY_THRESHOLD]
  · intro q
    by_cases h : q < (0.5 : ℚ)
    · have h5 : q < primer_threshold false := by
        simpa [primer_threshold] using h
      simp only [passes_quality_gate, h5, if_true]
      constructor
      · intro hfalse; exact absurd hfalse (by decide)
      · intro hle; linarith
    · have h5 : ¬ q < primer_threshold false := by
        simpa [primer_threshold] using h
      simp only [passes_quality_gate, h5, if_false]
      simpa using not_lt.mp h

/-- Witness for C6: the concrete score 0.59999 is strictly below 0.6 and is
rejected by the similarity-mode gate. -/
theorem C6_quality_gate_inclusive_witness :
    (0.59999 : ℚ) < 0.6 ∧ passes_quality_gate true 0.59999 = false :=
  ⟨by norm_num, C6_quality_gate_inclusive.2.1 0.59999 (by norm_num)⟩

/-- A self dot product is a sum of squares. -/
theorem dotQ_self_nonneg (a : List ℚ) : 0 ≤ dotQ a a := by
  induction a with
  | nil => simp [dotQ]
  | cons x xs ih =>
      have : dotQ (x :: xs) (x :: xs) = x * x + dotQ xs xs := rfl
      rw [this]
      nlinarith [sq_nonneg x]

/-- `cosGT` decides `t < cosineSim` for nonzero vectors and a nonnegative
threshold. -/
theorem cosGT_iff_cosineSim (a b : List ℚ) (t : ℚ) (ha : dotQ a a ≠ 0)
    (hb : dotQ b b ≠ 0) (ht : 0 ≤ t) :
    cosGT a b t = true ↔ (t : ℝ) < cosineSim a b := by
  have hna : (0 : ℚ) < dotQ a a := lt_of_le_of_ne (dotQ_self_nonneg a) (Ne.symm ha)
  have hnb : (0 : ℚ) < dotQ b b := lt_of_le_of_ne (dotQ_self_nonneg b) (Ne.symm hb)
  have hnaR : (0 : ℝ) < ((dotQ a a : ℚ) : ℝ) := by exact_mod_cast hna
  have hnbR : (0 : ℝ) < ((dotQ b b : ℚ) : ℝ) := by exact_mod_cast hnb
  have hsa : (0 : ℝ) < Real.sqrt (dotQ a a : ℚ) := Real.sqrt_pos.mpr hnaR
  have hsb : (0 : ℝ) < Real.sqrt (dotQ b b : ℚ) := Real.sqrt_pos.mpr hnbR
  have hD : (0 : ℝ) < Real.sqrt (dotQ a a : ℚ) * Real.sqrt (dotQ b b : ℚ) :=
    mul_pos hsa hsb
  have hD2 : (Real.sqrt (dotQ a a : ℚ) * Real.sqrt (dotQ b b : ℚ)) ^ 2 =
      ((dotQ a a : ℚ) : ℝ) * ((dotQ b b : ℚ) : ℝ) := by
    rw [mul_pow, Real.sq_sqrt hnaR.le, Real.sq_sqrt hnbR.le]
  rw [cosineSim, lt_div_iff₀ hD]
  unfold cosGT
  rw [Bool.and_eq_true, decide_eq_true_eq, decide_eq_true_eq]
  constructor
  · rintro ⟨hdpos, hsq⟩
    have hdposR : (0 : ℝ) < ((dotQ a b : ℚ) : ℝ) := by exact_mod_cast hdpos
    have htD : (0 : ℝ) ≤ (t : ℝ) * (Real.sqrt (dotQ a a : ℚ) * Real.sqrt (dotQ b b : ℚ)) :=
      mul_nonneg (by exact_mod_cast ht) hD.le
    have hsqR : ((t : ℝ) * (Real.sqrt (dotQ a a : ℚ) * Real.sqrt (dotQ b b : ℚ))) ^ 2 <
        ((dotQ a b : ℚ) : ℝ) ^ 2 := by
      rw [mul_pow, hD2]
      exact_mod_cast hsq
    exact lt_of_pow_lt_pow_left₀ 2 hdposR.le hsqR
  · intro hlt
    have htD : (0 : ℝ) ≤ (t : ℝ) * (Real.sqrt (dotQ a a : ℚ) * Real.sqrt (dotQ b b : ℚ)) :=
      mul_nonneg (by exact_mod_cast ht) hD.le
    have hdposR : (0 : ℝ) < ((dotQ a b : ℚ) : ℝ) := lt_of_le_of_lt htD hlt
    refine ⟨by exact_mod_cast hdposR, ?_⟩
    have hsqR : ((t : ℝ) * (Real.sqrt (dotQ a a : ℚ) * Real.sqrt (dotQ b b : ℚ))) ^ 2 <
        ((dotQ a b : ℚ) : ℝ) ^ 2 := pow_lt_pow_left₀ hlt htD two_ne_zero
    rw [mul_pow, hD2] at hsqR
    have : ((t : ℝ) ^ 2 * (((dotQ a a : ℚ) : ℝ) * ((dotQ b b : ℚ) : ℝ))) <
        ((dotQ a b : ℚ) : ℝ) ^ 2 := hsqR
    exact_mod_cast this

/-- A self-comparison always trips the duplicate threshold: for a nonzero
embedding, `cosGT e e SIMILARITY_THRESHOLD = true` (cosine similarity 1). -/
theorem cosGT_self (e : List ℚ) (hd : dotQ e e ≠ 0) :
    cosGT e e SIMILARITY_THRESHOLD = true := by
  have hpos : (0 : ℚ) < dotQ e e := lt_of_le_of_ne (dotQ_self_nonneg e) (Ne.symm hd)
  have h2 : SIMILARITY_THRESHOLD ^ 2 * (dotQ e e * dotQ e e) < dotQ e e ^ 2 := by
    have hsq : (0 : ℚ) < dotQ e e ^ 2 := by positivity
    have hst : SIMILARITY_THRESHOLD ^ 2 = 9 / 25 := by norm_num [SIMILARITY_THRESHOLD]
    nlinarith
  simp [cosGT, hpos, h2]

/-- For a recognized collection name the dynamic lookup returns that
collection, independently of the non-collection attribute namespace. -/
theorem getProfileAttr_of_mem (extraAttrs : String → Option Bool)
    (p : UserMemoryProfile) (t : String) (h : t ∈ collectionNames) :
    getProfileAttr extraAttrs p t = ProfileAttr.collection (namedCollection p t) := by
  simp only [collectionNames, List.mem_cons, List.not_mem_nil, or_false] at h
  rcases h with h | h | h | h | h <;> simp [getProfileAttr, namedCollection, h]

/-- Appending a single note with a recognized `note_type` through
`add_notes` extends exactly that note's collection with its stamped copy. -/
theorem namedCollection_add_notes_single (hashF : String → String)
    (embedBatch : List String → Except String (List (List ℚ)))
    (uuid : Nat → String) (now : Nat) (now_iso : String)
    (p : UserMemoryProfile) (table : List NoteEmbedding) (n : Note)
    (h : n.note_type ∈ collectionNames) :
    namedCollection (add_notes hashF embedBatch uuid now now_iso p table [n]).1
        n.note_type =
      namedCollection p n.note_type ++ [stampNote uuid now_iso 0 n] := by
  have hstamp : (stampNote uuid now_iso 0 n).note_type = n.note_type := rfl
  simp only [collectionNames, List.mem_cons, List.not_mem_nil, or_false] at h
  rcases h with h | h | h | h | h <;>
    simp [add_notes, addNoteToCollections, namedCollection, hstamp, h]

/-- **C2 (counterexample).** A candidate whose maximum cosine similarity
against the existing notes of its collection is exactly 0.6 is *kept*:
the duplicate test is `max_similarity > SIMILARITY_THRESHOLD`, strict, so
"at least 0.6 ⇒ dropped" fails at the boundary. -/
theorem C2_counterexample :
    cosineSim (embedC2 existingNoteC2.content) (embedC2 candidateNoteC2.content)
        = 0.6 ∧
    check_for_duplicates_before_adding (declaredAttrs profileC2) embedC2
        profileC2 [candidateNoteC2] = Except.ok [candidateNoteC2] := by
  have h1 : embedC2 existingNoteC2.content = [3/5, 4/5] := rfl
  have h2 : embedC2 candidateNoteC2.content = [1, 0] := rfl
  constructor
  · rw [h1, h2]
    have ha : ((dotQ [3/5, 4/5] [3/5, 4/5] : ℚ) : ℝ) = 1 := by norm_num [dotQ]
    have hb : ((dotQ [(1 : ℚ), 0] [1, 0] : ℚ) : ℝ) = 1 := by norm_num [dotQ]
    have hd : ((dotQ [3/5, 4/5] [(1 : ℚ), 0] : ℚ) : ℝ) = 3/5 := by norm_num [dotQ]
    unfold cosineSim
    rw [ha, hb, hd, Real.sqrt_one]
    norm_num
  · have hattr : getProfileAttr (declaredAttrs profileC2) profileC2
        candidateNoteC2.note_type = ProfileAttr.collection [existingNoteC2] := rfl
    have hB : ¬ (SIMILARITY_THRESHOLD ^ 2 *
        (dotQ [3/5, 4/5] [3/5, 4/5] * dotQ [(1 : ℚ), 0] [1, 0]) <
          dotQ [3/5, 4/5] [(1 : ℚ), 0] ^ 2) := by
      norm_num [dotQ, SIMILARITY_THRESHOLD]
    have hc : cosGT (embedC2 existingNoteC2.content)
        (embedC2 candidateNoteC2.content) SIMILARITY_THRESHOLD = false := by
      rw [h1, h2]
      unfold cosGT
      simp [hB]
    have hdup : is_note_duplicate embedC2 candidateNoteC2.content
        [existingNoteC2] = false := by
      simp only [is_note_duplicate, List.any_cons, List.any_nil, Bool.or_false]
      exact hc
    simp [check_for_duplicates_before_adding, hattr, hdup]

/-- **C2 (amended).** The duplicate filter's threshold is strict: (i) with
an empty existing collection no candidate is ever flagged; (ii) for a
nonempty collection of notes with nonzero embeddings, a candidate with a
nonzero embedding is flagged iff some existing note's cosine similarity
strictly exceeds 0.6; (iii) appending the same note content twice in
sequence in one recognized category (starting from an empty collection)
stores exactly one note: the first append survives the filter, the
resulting collection is exactly the stamped copy, and the second attempt
is dropped. -/
theorem C2_duplicate_filter_strict (embed : String → List ℚ) :
    (∀ content, is_note_duplicate embed content [] = false) ∧
    (∀ content (existing : List Note), existing ≠ [] →
      (∀ n ∈ existing, dotQ (embed n.content) (embed n.content) ≠ 0) →
      dotQ (embed content) (embed content) ≠ 0 →
      (is_note_duplicate embed content existing = true ↔
        ∃ n ∈ existing, (0.6 : ℝ) < cosineSim (embed n.content) (embed content))) ∧
    (∀ (extraAttrs : String → Option Bool) (hashF : String → String)
        (embedBatch : List String → Except String (List (List ℚ)))
        (uuid : Nat → String) (now : Nat) (now_iso : String)
        (p : UserMemoryProfile) (table : List NoteEmbedding) (n : Note),
      n.note_type ∈ collectionNames →
      namedCollection p n.note_type = [] →
      dotQ (embed n.content) (embed n.content) ≠ 0 →
      check_for_duplicates_before_adding extraAttrs embed p [n] = Except.ok [n] ∧
      namedCollection (add_notes hashF embedBatch uuid now now_iso p table [n]).1
          n.note_type = [stampNote uuid now_iso 0 n] ∧
      check_for_duplicates_before_adding extraAttrs embed
        (add_notes hashF embedBatch uuid now now_iso p table [n]).1 [n]
          = Except.ok []) := by
  have hcast : ((SIMILARITY_THRESHOLD : ℚ) : ℝ) = 0.6 := by
    norm_num [SIMILARITY_THRESHOLD]
  refine ⟨fun content => rfl, ?_, ?_⟩
  · intro content existing hne hex hc
    cases existing with
    | nil => exact absurd rfl hne
    | cons x xs =>
        simp only [is_note_duplicate, List.any_eq_true]
        constructor
        · rintro ⟨n, hn, hgt⟩
          refine ⟨n, hn, ?_⟩
          have := (cosGT_iff_cosineSim (embed n.content) (embed content)
              SIMILARITY_THRESHOLD (hex n hn) hc
              (by norm_num [SIMILARITY_THRESHOLD])).mp hgt
          rwa [hcast] at this
        · rintro ⟨n, hn, hgt⟩
          refine ⟨n, hn, ?_⟩
          refine (cosGT_iff_cosineSim (embed n.content) (embed content)
              SIMILARITY_THRESHOLD (hex n hn) hc
              (by norm_num [SIMILARITY_THRESHOLD])).mpr ?_
          rwa [hcast]
  · intro extraAttrs hashF embedBatch uuid now now_iso p table n hmem hempty hd
    have hattr : getProfileAttr extraAttrs p n.note_type
        = ProfileAttr.collection [] := by
      rw [getProfileAttr_of_mem extraAttrs p n.note_type hmem, hempty]
    have hfirst : check_for_duplicates_before_adding extraAttrs embed p [n]
        = Except.ok [n] := by
      simp [check_for_duplicates_before_adding, hattr, is_note_duplicate]
    have hcoll := namedCollection_add_notes_single hashF embedBatch uuid now now_iso
      p table n hmem
    rw [hempty] at hcoll
    refine ⟨hfirst, by simpa using hcoll, ?_⟩
    have hstampc : (stampNote uuid now_iso 0 n).content = n.content := rfl
    have hattr2 : getProfileAttr extraAttrs
        (add_notes hashF embedBatch uuid now now_iso p table [n]).1 n.note_type
        = ProfileAttr.collection [stampNote uuid now_iso 0 n] := by
      rw [getProfileAttr_of_mem extraAttrs _ n.note_type hmem, hcoll]
      simp
    have hdup : is_note_duplicate embed n.content [stampNote uuid now_iso 0 n]
        = true := by
      simp only [is_note_duplicate, List.any_cons, List.any_nil,
        Bool.or_false, hstampc]
      exact cosGT_self (embed n.content) hd
    simp [check_for_duplicates_before_adding, hattr2, hdup]

/-- Witness for C2 (amended), part (iii): with a constant unit embedder,
appending the same learning note twice to an empty profile keeps the first
copy and drops the second. -/
theorem C2_duplicate_filter_strict_witness :
    check_for_duplicates_before_adding (declaredAttrs emptyProfile)
        (fun _ => [1, 0]) emptyProfile
        [{ sampleNote with note_type := "learning_notes" }] =
      Except.ok [{ sampleNote with note_type := "learning_notes" }] ∧
    check_for_duplicates_before_adding (declaredAttrs emptyProfile)
      (fun _ => [1, 0])
      (add_notes (fun s => s) (fun _ => Except.error "down") (fun i => toString i)
        10 "2026-01-01" emptyProfile []
        [{ sampleNote with note_type := "learning_notes" }]).1
      [{ sampleNote with note_type := "learning_notes" }] = Except.ok [] := by
  have h := (C2_duplicate_filter_strict (fun _ => [1, 0])).2.2
    (declaredAttrs emptyProfile) (fun s => s) (fun _ => Except.error "down")
    (fun i => toString i) 10 "2026-01-01" emptyProfile []
    { sampleNote with note_type := "learning_notes" }
    (by simp [collectionNames]) rfl (by norm_num [dotQ])
  exact ⟨h.1, h.2.2⟩

/-- When every batched embedding call fails, `_generate_note_embeddings`
leaves the note-embedding table untouched (each per-type failure is caught
and logged). -/
theorem generate_note_embeddings_all_fail (hashF : String → String)
    (embedBatch : List String → Except String (List (List ℚ)))
    (h : ∀ ts, ∃ e, embedBatch ts = Except.error e)
    (user_id : String) (notes : List Note) (table : List NoteEmbedding) :
    generate_note_embeddings hashF embedBatch table user_id notes = table := by
  unfold generate_note_embeddings
  generalize noteTypesInOrder notes = groups
  induction groups generalizing table with
  | nil => rfl
  | cons t ts ih =>
      rw [List.foldl_cons]
      have hstep : (match store_note_embeddings_batch hashF embedBatch table user_id
            (notes.filter (fun n => n.note_type == t)) t with
          | .ok tbl' => tbl'
          | .error _ => table) = table := by
        simp only [store_note_embeddings_batch]
        by_cases hempty : ((notes.filter (fun n => n.note_type == t)).filter
            (noteNeedsEmbedding hashF table user_id)).isEmpty = true
        · rw [if_pos hempty]
        · rw [if_neg hempty]
          rcases h (((notes.filter (fun n => n.note_type == t)).filter
            (noteNeedsEmbedding hashF table user_id)).map (·.content)) with ⟨e, hee⟩
          rw [hee]
      rw [hstep]
      exact ih table

/-- **C8 (counterexample).** With an embedding service that raises on every
call, `add_notes` still completes: the note is stored in its collection,
no embedding row is written, and no failure is signalled — the error does
not propagate and the append does not abort. -/
theorem C8_counterexample :
    (add_notes (fun s => s) (fun _ => Except.error "embedding API down")
        (fun i => toString i) 10 "2026-01-02" emptyProfile [] [noteL]).1.learning_notes
      = [noteL] ∧
    (add_notes (fun s => s) (fun _ => Except.error "embedding API down")
        (fun i => toString i) 10 "2026-01-02" emptyProfile [] [noteL]).2 = [] := by
  exact ⟨rfl, rfl⟩

/-- **C8 (amended).** An embedding-service failure during a note append is
silently absorbed inside `_generate_note_embeddings` (per its docstring,
a deliberately non-blocking step): the stored profile — collections,
counters, timestamps — is exactly what it would have been had embedding
succeeded, `add_notes` completes with no failure signal, and when every
batch call fails the embedding table is left unchanged, so the notes end
up stored but unembedded. -/
theorem C8_embedding_failure_absorbed (hashF : String → String)
    (embedBatch embedBatchOk : List String → Except String (List (List ℚ)))
    (uuid : Nat → String) (now : Nat) (now_iso : String)
    (p : UserMemoryProfile) (table : List NoteEmbedding)
    (new_notes : List Note)
    (h : ∀ ts, ∃ e, embedBatch ts = Except.error e) :
    (add_notes hashF embedBatch uuid now now_iso p table new_notes).1 =
      (add_notes hashF embedBatchOk uuid now now_iso p table new_notes).1 ∧
    (add_notes hashF embedBatch uuid now now_iso p table new_notes).2 = table := by
  constructor
  · rfl
  · exact generate_note_embeddings_all_fail hashF embedBatch h p.user_id _ table

/-- Witness for C8 (amended): the concrete failing run of the
counterexample scenario, compared against a succeeding embedder. -/
theorem C8_embedding_failure_absorbed_witness :
    (add_notes (fun s => s) (fun _ => Except.error "embedding API down")
        (fun i => toString i) 10 "2026-01-02" emptyProfile [] [noteL]).1 =
      (add_notes (fun s => s) (fun ts => Except.ok (ts.map (fun _ => [1, 0])))
        (fun i => toString i) 10 "2026-01-02" emptyProfile [] [noteL]).1 ∧
    (add_notes (fun s => s) (fun _ => Except.error "embedding API down")
        (fun i => toString i) 10 "2026-01-02" emptyProfile [] [noteL]).2 = [] :=
  C8_embedding_failure_absorbed (fun s => s)
    (fun _ => Except.error "embedding API down")
    (fun ts => Except.ok (ts.map (fun _ => [1, 0])))
    (fun i => toString i) 10 "2026-01-02" emptyProfile [] [noteL]
    (fun _ => ⟨"embedding API down", rfl⟩)

/-- The seed of a `foldl max` bounds the result from below. -/
theorem le_foldl_max (a : ℚ) (l : List ℚ) : a ≤ l.foldl max a := by
  induction l generalizing a with
  | nil => simp
  | cons x xs ih => exact le_trans (le_max_left a x) (ih (max a x))

/-- Every member of the list bounds a `foldl max` from below. -/
theorem mem_le_foldl_max (a : ℚ) (l : List ℚ) : ∀ x ∈ l, x ≤ l.foldl max a := by
  induction l generalizing a with
  | nil => simp
  | cons y ys ih =>
      intro x hx
      rcases List.mem_cons.mp hx with rfl | hx'
      · exact le_trans (le_max_right a x) (le_foldl_max (max a x) ys)
      · exact ih (max a y) x hx'

/-- A `foldl max` is the seed or a member of the list. -/
theorem foldl_max_mem (a : ℚ) (l : List ℚ) :
    l.foldl max a = a ∨ l.foldl max a ∈ l := by
  induction l generalizing a with
  | nil => left; rfl
  | cons y ys ih =>
      rcases ih (max a y) with h | h
      · rcases max_choice a y with hm | hm
        · left; rw [List.foldl_cons, h, hm]
        · right; rw [List.foldl_cons, h, hm]; exact List.mem_cons_self y ys
      · right; exact List.mem_cons_of_mem y h

/-- `greatest` of a nonempty list is a member. -/
theorem greatest_mem (l : List ℚ) (h : l ≠ []) : greatest l ∈ l := by
  cases l with
  | nil => exact absurd rfl h
  | cons x xs =>
      rcases foldl_max_mem x xs with hx | hx
      · rw [greatest, hx]; exact List.mem_cons_self x xs
      · exact List.mem_cons_of_mem x hx

/-- `greatest` bounds every member of the list. -/
theorem le_greatest (l : List ℚ) (x : ℚ) (hx : x ∈ l) : x ≤ greatest l := by
  cases l with
  | nil => simp at hx
  | cons y ys =>
      rcases List.mem_cons.mp hx with rfl | hx'
      · exact le_foldl_max x ys
      · exact mem_le_foldl_max y ys x hx'

/-- **C7.** For a lesson with chunk embeddings, retrieval scores each note
row by the *maximum* cosine similarity (`1 - dist`) over all chunks, keeps
exactly the current user's rows whose maximum similarity is at least
`NOTE_FILTER_THRESHOLD = 0.4` (up to the descending ordering of the
result), and signal quality is the arithmetic mean of the kept rows'
maximum similarities, `0` when none are kept. -/
theorem C7_signal_retrieval (dist : List ℚ → List ℚ → ℚ)
    (note_rows : List NoteEmbedding) (chunks : List LessonChunkEmbedding)
    (user_id : String) (hch : chunks ≠ []) :
    NOTE_FILTER_THRESHOLD = 0.4 ∧
    (∀ v, (∃ c ∈ chunks, maxChunkSimilarity dist chunks v = 1 - dist v c.embedding) ∧
          (∀ c ∈ chunks, 1 - dist v c.embedding ≤ maxChunkSimilarity dist chunks v)) ∧
    (find_similar_notes_to_lesson dist note_rows chunks user_id
        NOTE_FILTER_THRESHOLD none).Perm
      ((note_rows.filter fun r => r.user_id == user_id &&
          decide (NOTE_FILTER_THRESHOLD ≤ maxChunkSimilarity dist chunks r.embedding)).map
        fun r => (r.note_id, r.note_type, maxChunkSimilarity dist chunks r.embedding)) ∧
    calculate_signal_quality (find_similar_notes_to_lesson dist note_rows chunks
        user_id NOTE_FILTER_THRESHOLD none) =
      (if (note_rows.filter fun r => r.user_id == user_id &&
            decide (NOTE_FILTER_THRESHOLD ≤ maxChunkSimilarity dist chunks r.embedding)).isEmpty
       then 0
       else ((note_rows.filter fun r => r.user_id == user_id &&
              decide (NOTE_FILTER_THRESHOLD ≤ maxChunkSimilarity dist chunks r.embedding)).map
            fun r => maxChunkSimilarity dist chunks r.embedding).sum /
          (note_rows.filter fun r => r.user_id == user_id &&
            decide (NOTE_FILTER_THRESHOLD ≤ maxChunkSimilarity dist chunks r.embedding)).length) := by
  have hempty_false : chunks.isEmpty = false := by
    simp [List.isEmpty_iff, hch]
  have hfind : find_similar_notes_to_lesson dist note_rows chunks user_id
      NOTE_FILTER_THRESHOLD none =
      List.insertionSort (fun a b => b.2.2 ≤ a.2.2)
        ((note_rows.filter fun r => r.user_id == user_id &&
            decide (NOTE_FILTER_THRESHOLD ≤ maxChunkSimilarity dist chunks r.embedding)).map
          fun r => (r.note_id, r.note_type, maxChunkSimilarity dist chunks r.embedding)) := by
    simp [find_similar_notes_to_lesson, hempty_false]
  have hperm : (find_similar_notes_to_lesson dist note_rows chunks user_id
      NOTE_FILTER_THRESHOLD none).Perm
      ((note_rows.filter fun r => r.user_id == user_id &&
          decide (NOTE_FILTER_THRESHOLD ≤ maxChunkSimilarity dist chunks r.embedding)).map
        fun r => (r.note_id, r.note_type, maxChunkSimilarity dist chunks r.embedding)) := by
    rw [hfind]
    exact List.perm_insertionSort _ _
  refine ⟨rfl, ?_, hperm, ?_⟩
  · intro v
    constructor
    · have hmem := greatest_mem (chunks.map fun c => 1 - dist v c.embedding)
        (by intro hx; exact hch (List.map_eq_nil_iff.mp hx))
      rcases List.mem_map.mp hmem with ⟨c, hc, hcv⟩
      exact ⟨c, hc, hcv.symm⟩
    · intro c hc
      exact le_greatest _ _ (List.mem_map_of_mem _ hc)
  · by_cases hk : (note_rows.filter fun r => r.user_id == user_id &&
        decide (NOTE_FILTER_THRESHOLD ≤ maxChunkSimilarity dist chunks r.embedding)) = []
    · have hres : find_similar_notes_to_lesson dist note_rows chunks user_id
          NOTE_FILTER_THRESHOLD none = [] := by
        have := hperm
        rw [hk] at this
        simpa using this.eq_nil
      rw [hres, hk]
      rfl
    · have hl2ne : ((note_rows.filter fun r => r.user_id == user_id &&
          decide (NOTE_FILTER_THRESHOLD ≤ maxChunkSimilarity dist chunks r.embedding)).map
            fun r => (r.note_id, r.note_type, maxChunkSimilarity dist chunks r.embedding)) ≠ [] := by
        intro hx
        exact hk (List.map_eq_nil_iff.mp hx)
      have hresne : find_similar_notes_to_lesson dist note_rows chunks user_id
          NOTE_FILTER_THRESHOLD none ≠ [] := by
        intro hx
        rw [hx] at hperm
        exact hl2ne hperm.symm.eq_nil
      unfold calculate_signal_quality
      rw [if_neg (by simp [List.isEmpty_iff, hresne]),
        if_neg (by simp [List.isEmpty_iff, hk])]
      have hsum : ((find_similar_notes_to_lesson dist note_rows chunks user_id
          NOTE_FILTER_THRESHOLD none).map fun x => x.2.2).sum =
          ((note_rows.filter fun r => r.user_id == user_id &&
            decide (NOTE_FILTER_THRESHOLD ≤ maxChunkSimilarity dist chunks r.embedding)).map
              fun r => maxChunkSimilarity dist chunks r.embedding).sum := by
        have := (hperm.map fun x => x.2.2).sum_eq
        rw [this, List.map_map]
        rfl
      have hlen : (find_similar_notes_to_lesson dist note_rows chunks user_id
          NOTE_FILTER_THRESHOLD none).length =
          (note_rows.filter fun r => r.user_id == user_id &&
            decide (NOTE_FILTER_THRESHOLD ≤ maxChunkSimilarity dist chunks r.embedding)).length := by
        rw [hperm.length_eq, List.length_map]
      rw [hsum, hlen]

/-- Witness for C7: a concrete lesson with one chunk and two note rows,
one above and one below the threshold. -/
theorem C7_signal_retrieval_witness :
    ([chunkW] : List LessonChunkEmbedding) ≠ [] ∧
    calculate_signal_quality (find_similar_notes_to_lesson distW
        [rowKept, rowDropped] [chunkW] "u1" NOTE_FILTER_THRESHOLD none) =
      (if (([rowKept, rowDropped] : List NoteEmbedding).filter fun r =>
            r.user_id == "u1" &&
              decide (NOTE_FILTER_THRESHOLD ≤
                maxChunkSimilarity distW [chunkW] r.embedding)).isEmpty
       then 0
       else ((([rowKept, rowDropped] : List NoteEmbedding).filter fun r =>
              r.user_id == "u1" &&
                decide (NOTE_FILTER_THRESHOLD ≤
                  maxChunkSimilarity distW [chunkW] r.embedding)).map
            fun r => maxChunkSimilarity distW [chunkW] r.embedding).sum /
          (([rowKept, rowDropped] : List NoteEmbedding).filter fun r =>
            r.user_id == "u1" &&
              decide (NOTE_FILTER_THRESHOLD ≤
                maxChunkSimilarity distW [chunkW] r.embedding)).length) :=
  ⟨List.cons_ne_nil _ _,
   (C7_signal_retrieval distW [rowKept, rowDropped] [chunkW] "u1"
      (List.cons_ne_nil _ _)).2.2.2⟩

/-- **C9.** When the extraction call raises after the pending event was
created, `analyze_interaction` rolls the transaction back (committed
profile, consolidations and embeddings are untouched and the pending event
vanishes), writes a fresh `failed` event carrying the error message and
commits it in its own transaction (final current = committed state), and
returns a failure dict with `memory_updated = false`, the error string,
and that event's id.  The hypothesis states that stored event ids are
below the id counter (the uniqueness invariant of the primary key). -/
theorem C9_exception_path (extraAttrs : String → Option Bool)
    (embed : String → List ℚ) (hashF : String → String)
    (embedBatch : List String → Except String (List (List ℚ)))
    (uuid : Nat → String) (now : Nat) (now_iso : String)
    (days : Option Nat) (consLLM : ConsolidationLLMOutcome)
    (itype : String) (e : String) (st : DBState)
    (hid : ∀ ev ∈ st.committed.events, ev.id < st.committed.next_event_id) :
    (analyze_interaction extraAttrs embed hashF embedBatch uuid now now_iso days consLLM
        itype (.error e) st).1.memory_updated = false ∧
    (analyze_interaction extraAttrs embed hashF embedBatch uuid now now_iso days consLLM
        itype (.error e) st).1.error = some e ∧
    (∃ ev : MemoryEvent,
      (analyze_interaction extraAttrs embed hashF embedBatch uuid now now_iso days consLLM
          itype (.error e) st).2.committed.events = st.committed.events ++ [ev] ∧
      ev.processing_status = "failed" ∧
      ev.processing_reasoning = some ("Error during analysis: " ++ e) ∧
      (analyze_interaction extraAttrs embed hashF embedBatch uuid now now_iso days consLLM
          itype (.error e) st).1.event_id = ev.id) ∧
    (analyze_interaction extraAttrs embed hashF embedBatch uuid now now_iso days consLLM
        itype (.error e) st).2.current =
      (analyze_interaction extraAttrs embed hashF embedBatch uuid now now_iso days consLLM
        itype (.error e) st).2.committed ∧
    (analyze_interaction extraAttrs embed hashF embedBatch uuid now now_iso days consLLM
        itype (.error e) st).2.committed.profile = st.committed.profile ∧
    (analyze_interaction extraAttrs embed hashF embedBatch uuid now now_iso days consLLM
        itype (.error e) st).2.committed.consolidations = st.committed.consolidations ∧
    (analyze_interaction extraAttrs embed hashF embedBatch uuid now now_iso days consLLM
        itype (.error e) st).2.committed.note_embeddings = st.committed.note_embeddings := by
  refine ⟨rfl, rfl, ?_, rfl, rfl, rfl, rfl⟩
  refine ⟨{ id := st.committed.next_event_id
            user_memory_profile_id := st.committed.profile.id
            event_type := itype
            processing_status := "failed"
            processing_reasoning := some ("Error during analysis: " ++ e)
            notes_added := []
            processed_at := some now }, ?_, rfl, rfl, rfl⟩
  simp only [analyze_interaction, analyze_failure_path, create_event,
    update_event_status, DBState.rollback, DBState.commit, List.map_append]
  have hmap : st.committed.events.map (fun ev =>
      if ev.id = st.committed.next_event_id then
        { ev with
          processing_status := "failed"
          processing_reasoning := some ("Error during analysis: " ++ e)
          notes_added := ([] : List Note)
          processed_at := some now }
      else ev) = st.committed.events := by
    refine (List.map_congr_left ?_).trans (List.map_id _)
    intro ev hev
    rw [if_neg (Nat.ne_of_lt (hid ev hev))]
    rfl
  rw [hmap]
  simp

/-- Witness for C9: a raising extraction call on the fresh store leaves a
single committed `failed` event carrying the error message. -/
theorem C9_exception_path_witness :
    (analyze_interaction (declaredAttrs emptyProfile) (fun _ => [1, 0]) (fun s => s)
        (fun _ => Except.error "down") (fun i => toString i) 10 "2026-01-02"
        none .unparseable "chat" (.error "LLM timeout") db0).1.memory_updated
      = false ∧
    (∃ ev : MemoryEvent,
      (analyze_interaction (declaredAttrs emptyProfile) (fun _ => [1, 0]) (fun s => s)
          (fun _ => Except.error "down") (fun i => toString i) 10 "2026-01-02"
          none .unparseable "chat" (.error "LLM timeout") db0).2.committed.events
        = db0.committed.events ++ [ev] ∧
      ev.processing_status = "failed" ∧
      ev.processing_reasoning = some ("Error during analysis: " ++ "LLM timeout") ∧
      (analyze_interaction (declaredAttrs emptyProfile) (fun _ => [1, 0]) (fun s => s)
          (fun _ => Except.error "down") (fun i => toString i) 10 "2026-01-02"
          none .unparseable "chat" (.error "LLM timeout") db0).1.event_id = ev.id) :=
  ⟨(C9_exception_path (declaredAttrs emptyProfile) (fun _ => [1, 0]) (fun s => s)
      (fun _ => Except.error "down") (fun i => toString i) 10 "2026-01-02"
      none .unparseable "chat" "LLM timeout" db0
      (fun ev hev => absurd hev (List.not_mem_nil ev))).1,
   (C9_exception_path (declaredAttrs emptyProfile) (fun _ => [1, 0]) (fun s => s)
      (fun _ => Except.error "down") (fun i => toString i) 10 "2026-01-02"
      none .unparseable "chat" "LLM timeout" db0
      (fun ev hev => absurd hev (List.not_mem_nil ev))).2.2.1⟩

/-- **C10 (counterexample).** `"user_id"` is not one of the five recognized
collection names, yet the interaction does not take the claimed success
path: `getattr(memory_profile, "user_id", [])` returns the profile's
truthy `user_id` string, `_is_note_duplicate` raises while iterating it,
and `analyze_interaction` lands in the except block — nothing is stored,
`total_interactions` is not incremented, no embedding row is created, and
the failure dict carries no `notes_added`. -/
theorem C10_counterexample :
    "user_id" ∉ collectionNames ∧
    (analyze_interaction (declaredAttrs emptyProfile) (fun _ => [1, 0])
        (fun s => s) (fun ts => Except.ok (ts.map (fun _ => [1, 0])))
        (fun i => "uuid-" ++ toString i) 10 "2026-01-02" none .unparseable "chat"
        (.ok { should_update_memory := true, reasoning := "insight",
               new_notes := [userIdNote] }) db0).1.memory_updated = false ∧
    (analyze_interaction (declaredAttrs emptyProfile) (fun _ => [1, 0])
        (fun s => s) (fun ts => Except.ok (ts.map (fun _ => [1, 0])))
        (fun i => "uuid-" ++ toString i) 10 "2026-01-02" none .unparseable "chat"
        (.ok { should_update_memory := true, reasoning := "insight",
               new_notes := [userIdNote] }) db0).1.error = some dedupTypeError ∧
    (analyze_interaction (declaredAttrs emptyProfile) (fun _ => [1, 0])
        (fun s => s) (fun ts => Except.ok (ts.map (fun _ => [1, 0])))
        (fun i => "uuid-" ++ toString i) 10 "2026-01-02" none .unparseable "chat"
        (.ok { should_update_memory := true, reasoning := "insight",
               new_notes := [userIdNote] }) db0).1.notes_added = [] ∧
    (analyze_interaction (declaredAttrs emptyProfile) (fun _ => [1, 0])
        (fun s => s) (fun ts => Except.ok (ts.map (fun _ => [1, 0])))
        (fun i => "uuid-" ++ toString i) 10 "2026-01-02" none .unparseable "chat"
        (.ok { should_update_memory := true, reasoning := "insight",
               new_notes := [userIdNote] }) db0).2.committed.profile
      = emptyProfile ∧
    (analyze_interaction (declaredAttrs emptyProfile) (fun _ => [1, 0])
        (fun s => s) (fun ts => Except.ok (ts.map (fun _ => [1, 0])))
        (fun i => "uuid-" ++ toString i) 10 "2026-01-02" none .unparseable "chat"
        (.ok { should_update_memory := true, reasoning := "insight",
               new_notes := [userIdNote] }) db0).2.committed.note_embeddings
      = [] := by
  exact ⟨by decide, rfl, rfl, rfl, rfl, rfl⟩

/-- **C10 (amended).** If an extracted note's `note_type` is none of the
five recognized collection names *and does not name an attribute of the
profile object* (so the `getattr` lookup falls back to its `[]` default),
the success path of `analyze_interaction` stores it in *no* collection —
all five collections are unchanged — yet `total_interactions` is still
incremented, the note is still returned in `notes_added`, and a
`NoteEmbedding` row is still created for it (carrying the unrecognized
type).  (When the `note_type` names a truthy non-collection attribute, the
duplicate check raises instead and the interaction takes the failure
path.)  Hypotheses: the note is freshly extracted (no id), non-empty
content, a non-empty generated uuid, no pre-existing embedding row under
that uuid, a succeeding embedding call, and a consolidation policy that
does not fire on the resulting profile. -/
theorem C10_unrecognized_note_type (extraAttrs : String → Option Bool)
    (embed : String → List ℚ)
    (hashF : String → String)
    (embedBatch : List String → Except String (List (List ℚ)))
    (uuid : Nat → String) (now : Nat) (now_iso : String)
    (days : Option Nat) (consLLM : ConsolidationLLMOutcome)
    (itype rs : String) (n : Note) (v : List ℚ) (st : DBState)
    (hmem : n.note_type ∉ collectionNames)
    (hext : extraAttrs n.note_type = none)
    (hidn : n.id = none)
    (hcontent : n.content ≠ "")
    (huuid : uuid 0 ≠ "")
    (hrow : findRow st.current.note_embeddings st.current.profile.user_id
      (uuid 0) = none)
    (hemb : embedBatch [n.content] = Except.ok [v])
    (htrig : should_trigger_consolidation
      (add_notes hashF embedBatch uuid now now_iso st.current.profile
        st.current.note_embeddings [n]).1 days = false) :
    (analyze_interaction extraAttrs embed hashF embedBatch uuid now now_iso days consLLM
        itype (.ok { should_update_memory := true, reasoning := rs,
                     new_notes := [n] }) st).1.memory_updated = true ∧
    (analyze_interaction extraAttrs embed hashF embedBatch uuid now now_iso days consLLM
        itype (.ok { should_update_memory := true, reasoning := rs,
                     new_notes := [n] }) st).1.notes_added = [n] ∧
    (analyze_interaction extraAttrs embed hashF embedBatch uuid now now_iso days consLLM
        itype (.ok { should_update_memory := true, reasoning := rs,
                     new_notes := [n] }) st).2.committed.profile =
      { st.current.profile with
        total_interactions := st.current.profile.total_interactions + 1
        last_significant_update := some now
        updated_at := some now } ∧
    (analyze_interaction extraAttrs embed hashF embedBatch uuid now now_iso days consLLM
        itype (.ok { should_update_memory := true, reasoning := rs,
                     new_notes := [n] }) st).2.committed.note_embeddings =
      st.current.note_embeddings ++
        [{ user_id := st.current.profile.user_id
           note_id := uuid 0
           note_type := n.note_type
           content_hash := hashF n.content
           embedding := v }] := by
  have hns : ¬ (n.note_type = "learning_notes" ∨ n.note_type = "knowledge_notes" ∨
      n.note_type = "interest_notes" ∨ n.note_type = "behavior_notes" ∨
      n.note_type = "preference_notes") := by
    simpa [collectionNames] using hmem
  push_neg at hns
  obtain ⟨h1, h2, h3, h4, h5⟩ := hns
  have hattr : getProfileAttr extraAttrs st.current.profile n.note_type
      = ProfileAttr.absent := by
    simp [getProfileAttr, h1, h2, h3, h4, h5, hext]
  have hfiltered : check_for_duplicates_before_adding extraAttrs embed
      st.current.profile [n] = Except.ok [n] := by
    simp [check_for_duplicates_before_adding, hattr, is_note_duplicate]
  -- the stamped copy of `n`
  have hstampone : List.mapIdx (fun i note => stampNote uuid now_iso i note) [n]
      = [stampNote uuid now_iso 0 n] := rfl
  have hs_id : (stampNote uuid now_iso 0 n).id = some (uuid 0) := by
    simp [stampNote, hidn]
  have hs_type : (stampNote uuid now_iso 0 n).note_type = n.note_type := rfl
  have hs_content : (stampNote uuid now_iso 0 n).content = n.content := rfl
  have hfold : addNoteToCollections st.current.profile (stampNote uuid now_iso 0 n)
      = st.current.profile := by
    simp [addNoteToCollections, hs_type, h1, h2, h3, h4, h5]
  have hneeds : noteNeedsEmbedding hashF st.current.note_embeddings
      st.current.profile.user_id (stampNote uuid now_iso 0 n) = true := by
    rw [noteNeedsEmbedding, hs_id]
    simp [hs_content, huuid, hcontent, hrow]
  have hstore : store_note_embeddings_batch hashF embedBatch
      st.current.note_embeddings st.current.profile.user_id
      [stampNote uuid now_iso 0 n] n.note_type =
      Except.ok (st.current.note_embeddings ++
        [{ user_id := st.current.profile.user_id
           note_id := uuid 0
           note_type := n.note_type
           content_hash := hashF n.content
           embedding := v }]) := by
    have htoEmbed : List.filter
        (noteNeedsEmbedding hashF st.current.note_embeddings
          st.current.profile.user_id) [stampNote uuid now_iso 0 n]
        = [stampNote uuid now_iso 0 n] := by
      simp [hneeds]
    simp only [store_note_embeddings_batch, htoEmbed]
    rw [if_neg (by simp)]
    have hmapc : List.map (fun x => x.content) [stampNote uuid now_iso 0 n]
        = [n.content] := by simp [hs_content]
    rw [hmapc, hemb]
    have happly : applyOneEmbedding hashF st.current.profile.user_id n.note_type
        st.current.note_embeddings (stampNote uuid now_iso 0 n, v) =
        st.current.note_embeddings ++
          [{ user_id := st.current.profile.user_id
             note_id := uuid 0
             note_type := n.note_type
             content_hash := hashF n.content
             embedding := v }] := by
      rw [applyOneEmbedding, hs_id]
      simp [hrow, hs_content]
    show Except.ok (List.foldl (applyOneEmbedding hashF st.current.profile.user_id
        n.note_type) st.current.note_embeddings
        (List.zip [stampNote uuid now_iso 0 n] [v])) = _
    rw [show List.zip [stampNote uuid now_iso 0 n] [v]
        = [(stampNote uuid now_iso 0 n, v)] from rfl]
    rw [List.foldl_cons, List.foldl_nil, happly]
  have hgen : generate_note_embeddings hashF embedBatch
      st.current.note_embeddings st.current.profile.user_id
      [stampNote uuid now_iso 0 n] =
      st.current.note_embeddings ++
        [{ user_id := st.current.profile.user_id
           note_id := uuid 0
           note_type := n.note_type
           content_hash := hashF n.content
           embedding := v }] := by
    have htypes : noteTypesInOrder [stampNote uuid now_iso 0 n] = [n.note_type] := by
      simp [noteTypesInOrder, hs_type]
    simp only [generate_note_embeddings, htypes, List.foldl_cons, List.foldl_nil]
    have hfiltT : List.filter (fun x => x.note_type == n.note_type)
        [stampNote uuid now_iso 0 n] = [stampNote uuid now_iso 0 n] := by
      simp [hs_type]
    rw [hfiltT, hstore]
  have hadd1 : (add_notes hashF embedBatch uuid now now_iso st.current.profile
      st.current.note_embeddings [n]).1 =
      { st.current.profile with
        total_interactions := st.current.profile.total_interactions + 1
        last_significant_update := some now
        updated_at := some now } := by
    simp only [add_notes, hstampone, List.foldl_cons, List.foldl_nil, hfold]
  have hadd2 : (add_notes hashF embedBatch uuid now now_iso st.current.profile
      st.current.note_embeddings [n]).2 =
      st.current.note_embeddings ++
        [{ user_id := st.current.profile.user_id
           note_id := uuid 0
           note_type := n.note_type
           content_hash := hashF n.content
           embedding := v }] := by
    simp only [add_notes, hstampone]
    exact hgen
  refine ⟨?_, ?_, ?_, ?_⟩
  · simp only [analyze_interaction, create_event, update_event_status,
      DBState.commit, hfiltered, htrig, List.isEmpty_cons, if_false, if_true,
      Bool.false_eq_true]
  · simp only [analyze_interaction, create_event, update_event_status,
      DBState.commit, hfiltered, htrig, List.isEmpty_cons, if_false, if_true,
      Bool.false_eq_true]
  · simp only [analyze_interaction, create_event, update_event_status,
      DBState.commit, hfiltered, htrig, List.isEmpty_cons, if_false, if_true,
      Bool.false_eq_true]
    exact hadd1
  · simp only [analyze_interaction, create_event, update_event_status,
      DBState.commit, hfiltered, htrig, List.isEmpty_cons, if_false, if_true,
      Bool.false_eq_true]
    exact hadd2

/-- Witness for C10: on the fresh store, the `misc_notes` note lands in no
collection yet is returned in `notes_added` and gets an embedding row. -/
theorem C10_unrecognized_note_type_witness :
    (analyze_interaction (declaredAttrs emptyProfile) (fun _ => [1, 0])
        (fun s => s) (fun ts => Except.ok (ts.map (fun _ => [1, 0])))
        (fun i => "uuid-" ++ toString i) 10 "2026-01-02" none .unparseable "chat"
        (.ok { should_update_memory := true, reasoning := "insight",
               new_notes := [weirdNote] }) db0).1.notes_added = [weirdNote] ∧
    (analyze_interaction (declaredAttrs emptyProfile) (fun _ => [1, 0])
        (fun s => s) (fun ts => Except.ok (ts.map (fun _ => [1, 0])))
        (fun i => "uuid-" ++ toString i) 10 "2026-01-02" none .unparseable "chat"
        (.ok { should_update_memory := true, reasoning := "insight",
               new_notes := [weirdNote] }) db0).2.committed.note_embeddings =
      db0.current.note_embeddings ++
        [{ user_id := db0.current.profile.user_id
           note_id := (fun i : Nat => "uuid-" ++ toString i) 0
           note_type := weirdNote.note_type
           content_hash := (fun s : String => s) weirdNote.content
           embedding := [1, 0] }] :=
  ⟨(C10_unrecognized_note_type (declaredAttrs emptyProfile) (fun _ => [1, 0])
      (fun s => s) (fun ts => Except.ok (ts.map (fun _ => [1, 0])))
      (fun i => "uuid-" ++ toString i) 10 "2026-01-02" none .unparseable
      "chat" "insight" weirdNote [1, 0] db0
      (by decide) rfl rfl (by decide) (by decide) rfl rfl (by decide)).2.1,
   (C10_unrecognized_note_type (declaredAttrs emptyProfile) (fun _ => [1, 0])
      (fun s => s) (fun ts => Except.ok (ts.map (fun _ => [1, 0])))
      (fun i => "uuid-" ++ toString i) 10 "2026-01-02" none .unparseable
      "chat" "insight" weirdNote [1, 0] db0
      (by decide) rfl rfl (by decide) (by decide) rfl rfl (by decide)).2.2.2⟩
